import Mathlib

/-
Verification of the college-helpdesk chatbot's message-classification
pipeline: the guardrail filter (src/utils/guardrails.py), the rule engine
(src/utils/rule_engine.py), the AI fallback adapter (src/utils/ai_fallback.py)
and the dispatcher (src/app.py, route /chat), against its specification.

Modelling conventions:
- Python strings are modelled as Lean `String`; character classes of the
  CPython `re` module are modelled over ASCII (`\w` = ASCII alphanumeric or
  underscore, `\s` = " \t\n\r\x0b\x0c", `\d` = ASCII digit, `[a-zA-Z]` =
  ASCII letter).  All configuration word lists and all regex literals of the
  source are ASCII, so on ASCII inputs the model agrees with CPython.
- `str.strip()` / `str.lower()` / `str.upper()` are `pyStrip` / `pyLower` /
  `pyUpper` below, written over character lists so that they reduce inside
  the kernel.
- `re.search` of the concrete patterns used by the source is translated to
  explicit positional scans with the same leftmost/greedy semantics; for the
  purely existential questions ("does a match exist") the translation is an
  existential scan over match decompositions, which coincides with
  `re.search` truthiness.
- Python dicts that the admin panel owns (timetables, room_directory,
  faculty, ...) are association lists in insertion order; `d[k]` on a
  profile dict whose key may be absent is modelled in the `Except` monad
  (`Except.error` = the Python KeyError escaping the function).
- `random.choice`, `datetime.now().strftime("%A")` and
  `difflib.SequenceMatcher(None, a, b).ratio()` are external effects /
  stdlib capabilities; they enter the model as explicit parameters
  (`choice`, `today`, `ratio`) of the rule-engine environment.
- Floats are modelled as `ℚ`; Python `round(x, 2)` is round-half-to-even at
  two decimals.
-/

/-! ## Basic Python-flavoured string helpers -/

/-- One apostrophe character (U+0027), used to build source string literals. -/
def apos : String := String.singleton (Char.ofNat 39)

/-- Python `\s` class member: " \t\n\r\x0b\x0c". -/
def isPySpace (c : Char) : Bool :=
  c == ' ' || c == '\t' || c == '\n' || c == '\r' || c == '\x0b' || c == '\x0c'

/-- Python `\w` class member (ASCII model): letter, digit or underscore. -/
def isWordChar (c : Char) : Bool := c.isAlphanum || c == '_'

/-- Python `str.lower()` (ASCII model), written over the character list so
that it reduces in the kernel. -/
def pyLower (s : String) : String := String.mk (s.data.map Char.toLower)

/-- Python `str.upper()` (ASCII model). -/
def pyUpper (s : String) : String := String.mk (s.data.map Char.toUpper)

/-- Python `str.strip()` (whitespace model as in `isPySpace`). -/
def pyStrip (s : String) : String :=
  String.mk (((s.data.dropWhile isPySpace).reverse.dropWhile isPySpace).reverse)

/-- Membership test for a character position (out of range counts as `false`). -/
def charAtIs (s : List Char) (i : Nat) (p : Char → Bool) : Bool :=
  match s.get? i with
  | some c => p c
  | none => false

/-- Is the character at position `i` a `\w` character? -/
def charIsWordAt (s : List Char) (i : Nat) : Bool := charAtIs s i isWordChar

/-- Is the character at position `i` an ASCII digit? -/
def digitAt (s : List Char) (i : Nat) : Bool := charAtIs s i Char.isDigit

/-- Substring containment, Python `needle in hay`. -/
def subMem (needle hay : List Char) : Bool :=
  hay.tails.any (fun t => needle.isPrefixOf t)

/-- Python `needle in hay` on strings. -/
def pyIn (needle hay : String) : Bool := subMem needle.data hay.data

/-- Worker for `pySplit`: accumulate the current word (reversed) while
scanning. -/
def pySplitAux : List Char → List Char → List String
  | [], acc => if acc = [] then [] else [String.mk acc.reverse]
  | c :: rest, acc =>
    if isPySpace c then
      if acc = [] then pySplitAux rest []
      else String.mk acc.reverse :: pySplitAux rest []
    else pySplitAux rest (c :: acc)

/-- Python `str.split()`: split on whitespace runs, no empty tokens. -/
def pySplit (s : String) : List String := pySplitAux s.data []

/-- Join a list of strings with a separator (Python `sep.join(l)`). -/
def joinWith (sep : String) : List String → String
  | [] => ""
  | [x] => x
  | x :: y :: rest => x ++ sep ++ joinWith sep (y :: rest)

/-! ## Configuration constants (src/config.py) -/

def SIMILARITY_THRESHOLD : ℚ := 6/10

def BLOCKED_WORDS : List String :=
  ["hack", "cheat", "exploit", "crack", "breach",
   "inappropriate", "offensive", "abuse", "harass",
   "stupid", "idiot", "dumb",
   "kill", "attack", "threat", "bomb",
   "fake", "forge", "bribe"]

def PERSONAL_QUESTION_KEYWORDS : List String :=
  ["girlfriend", "boyfriend", "wife", "husband", "married",
   "salary", "income", "how much earn", "personal life",
   "home address", "where does", "live", "phone number of",
   "age of", "how old is", "private", "secret"]

def OFF_TOPIC_KEYWORDS : List String :=
  ["politics", "election", "vote", "government", "minister", "party",
   "religion", "god", "prayer", "temple", "church", "mosque",
   "dating", "movie", "cricket", "football", "game score",
   "gambling", "betting", "cryptocurrency", "bitcoin", "stock market",
   "personal advice", "relationship advice", "life advice",
   "illegal", "drugs", "alcohol"]

def FALLBACK_MESSAGE : String :=
  "I" ++ apos ++ "m sorry, I couldn" ++ apos ++
  "t find an answer to your question. Please contact the college admin office for further assistance."

def OFF_TOPIC_MESSAGE : String :=
  "I can only help with college-related queries. Please ask questions about admissions, courses, fees, timings, faculty, or other college matters."

def BLOCKED_CONTENT_MESSAGE : String :=
  "I cannot respond to this type of query. Please keep your questions appropriate and college-related."

def PERSONAL_QUESTION_MESSAGE : String :=
  "I cannot provide personal information about individuals. For faculty contact details, please visit the college website or contact the admin office."

def PRIVACY_MESSAGE : String :=
  "For your privacy and security, please don" ++ apos ++
  "t share personal information like phone numbers, email addresses, or ID numbers in this chat."

/-! ## Guardrail 1: input validation (guardrails.is_valid_input) -/

/-- Source `is_valid_input(message)`: returns `(is_valid, error_message)`. -/
def is_valid_input (message : String) : Bool × String :=
  if pyStrip message = "" then
    (false, "Please enter a message.")
  else
    let cleaned := pyStrip message
    if cleaned.length < 2 then
      (false, "Your message is too short. Please provide more details.")
    else if cleaned.length > 500 then
      (false, "Your message is too long. Please keep it under 500 characters.")
    else if ¬ cleaned.data.any (fun c => c.isAlpha) then
      (false, "Please enter a valid message with some text.")
    else
      (true, "")

/-! ## Guardrail 2: spam detection (guardrails.is_spam) -/

/-- Source regex `(.)\1{5,}`: some character repeated at least 6 times in a row. -/
def hasRepeatRun6 : List Char → Bool
  | a :: b :: c :: d :: e :: f :: rest =>
    (a == b && b == c && c == d && d == e && e == f) ||
      hasRepeatRun6 (b :: c :: d :: e :: f :: rest)
  | _ => false

/-- Python `str.isupper()` (ASCII model): at least one letter and no lowercase letter. -/
def pyIsUpper (s : String) : Bool :=
  s.data.any (fun c => c.isAlpha) && s.data.all (fun c => ¬ c.isLower)

/-- Count of `[!?.,]` characters, source `re.findall(r'[!?.,]', message)`. -/
def countPunct (s : List Char) : Nat :=
  (s.filter (fun c => c == '!' || c == '?' || c == '.' || c == ',')).length

/-- Source `is_spam(message)`. -/
def is_spam (message : String) : Bool :=
  hasRepeatRun6 message.data ||
  (decide (message.length > 10) && pyIsUpper message) ||
  decide (countPunct message.data > 10)

/-! ## Guardrail 3: blocked words (guardrails.contains_blocked_words) -/

/-- Regex `\b<word>\b` matches at position `i` of `s` (for a word made of
`\w` characters): the word occurs at `i` and is not flanked by `\w` characters. -/
def wholeWordAt (w s : List Char) (i : Nat) : Bool :=
  w.isPrefixOf (s.drop i) &&
  (i == 0 || ¬ charIsWordAt s (i - 1)) &&
  ¬ charIsWordAt s (i + w.length)

/-- `re.search(r'\b' + word + r'\b', s)` truthiness for a `\w`-only word. -/
def wholeWordSearch (w s : List Char) : Bool :=
  (List.range (s.length + 1)).any (fun i => wholeWordAt w s i)

/-- Source `contains_blocked_words(message)`. -/
def contains_blocked_words (message : String) : Bool :=
  BLOCKED_WORDS.any (fun word => wholeWordSearch word.data (pyLower message).data)

/-! ## Guardrail 4: personal questions (guardrails.is_personal_question) -/

/-- Segment `s[start..j)` exists, is nonempty and `.`-matchable (no newline),
and one of the literal tails starts at `j`; models `.+ <tail>` of `re.search`. -/
def dotPlusThen (s : List Char) (start : Nat) (tails : List (List Char)) : Bool :=
  (List.range (s.length + 1)).any (fun j =>
    decide (start + 1 ≤ j) &&
    ((s.drop start).take (j - start)).all (fun c => ¬ (c == '\n')) &&
    tails.any (fun t => t.isPrefixOf (s.drop j)))

/-- `re.search("<lit>.+(<alt1>|...)", s)` truthiness for the source's
personal-question templates (each written as a literal head, `.+`, and a
set of literal alternative tails). -/
def searchLitDotLit (lit : List Char) (tails : List (List Char)) (s : List Char) : Bool :=
  (List.range (s.length + 1)).any (fun i =>
    lit.isPrefixOf (s.drop i) && dotPlusThen s (i + lit.length) tails)

/-- Source `is_personal_question(message)`. -/
def is_personal_question (message : String) : Bool :=
  let ml := pyLower message
  PERSONAL_QUESTION_KEYWORDS.any (fun keyword => pyIn keyword ml) ||
  searchLitDotLit "what is ".data
    [" phone".data, " number".data, " address".data, " salary".data] ml.data ||
  searchLitDotLit "where does ".data [" live".data] ml.data ||
  pyIn "how old is" ml ||
  searchLitDotLit "is ".data [" married".data, " single".data, " dating".data] ml.data ||
  searchLitDotLit "tell me about ".data [" personal".data] ml.data

/-! ## Guardrail 5: off-topic (guardrails.is_off_topic) -/

/-- Source `is_off_topic(message)`. -/
def is_off_topic (message : String) : Bool :=
  OFF_TOPIC_KEYWORDS.any (fun keyword => pyIn keyword (pyLower message))

/-! ## Guardrail 6: personal information (guardrails.contains_personal_info) -/

/-- Regex `\b` assertion between positions `i-1` and `i` of `s`. -/
def boundaryAt (s : List Char) (i : Nat) : Bool :=
  (if i == 0 then false else charIsWordAt s (i - 1)) != charIsWordAt s i

/-- All positions in `s[lo..lo+len)` satisfy `p` (out of range fails). -/
def rangeAll (s : List Char) (lo len : Nat) (p : Char → Bool) : Bool :=
  (List.range len).all (fun k => charAtIs s (lo + k) p)

/-- Source pattern `\b[6-9]\d{9}\b`. -/
def phoneMatch (s : List Char) : Bool :=
  (List.range (s.length + 1)).any (fun i =>
    charAtIs s i (fun c => c == '6' || c == '7' || c == '8' || c == '9') &&
    rangeAll s (i + 1) 9 Char.isDigit &&
    (i == 0 || ¬ charIsWordAt s (i - 1)) &&
    ¬ charIsWordAt s (i + 10))

/-- Character class `[A-Za-z0-9._%+-]` of the email pattern. -/
def emailLocalClass (c : Char) : Bool :=
  c.isAlphanum || c == '.' || c == '_' || c == '%' || c == '+' || c == '-'

/-- Character class `[A-Za-z0-9.-]` of the email pattern. -/
def emailDomClass (c : Char) : Bool := c.isAlphanum || c == '.' || c == '-'

/-- Character class `[A-Z|a-z]` of the email pattern (the source literally
includes `|` in the class). -/
def emailTldClass (c : Char) : Bool := c.isAlpha || c == '|'

/-- Source pattern `\b[A-Za-z0-9._%+-]+@[A-Za-z0-9.-]+\.[A-Z|a-z]{2,}\b`:
an existential scan over decompositions local `s[i..a)`, `@` at `a`,
domain `s[a+1..b)`, `.` at `b`, TLD `s[b+1..c)` of length at least 2. -/
def emailMatch (s : List Char) : Bool :=
  let n := s.length
  (List.range (n + 1)).any (fun i =>
    (List.range (n + 1)).any (fun a =>
      (List.range (n + 1)).any (fun b =>
        (List.range (n + 1)).any (fun c =>
          decide (i < a) && decide (a + 1 < b) && decide (b + 3 ≤ c) &&
          rangeAll s i (a - i) emailLocalClass &&
          charAtIs s a (fun ch => ch == '@') &&
          rangeAll s (a + 1) (b - (a + 1)) emailDomClass &&
          charAtIs s b (fun ch => ch == '.') &&
          rangeAll s (b + 1) (c - (b + 1)) emailTldClass &&
          boundaryAt s i && boundaryAt s c))))

/-- Four consecutive ASCII digits starting at `i`. -/
def digits4At (s : List Char) (i : Nat) : Bool := rangeAll s i 4 Char.isDigit

/-- Source pattern `\b\d{4}\s?\d{4}\s?\d{4}\b` (optional single whitespace
between digit groups), scanned over the two optional separators. -/
def aadharMatch (s : List Char) : Bool :=
  (List.range (s.length + 1)).any (fun i =>
    [false, true].any (fun g1 =>
      [false, true].any (fun g2 =>
        let p2 := i + 4 + (if g1 then 1 else 0)
        let p3 := p2 + 4 + (if g2 then 1 else 0)
        digits4At s i &&
        (¬ g1 || charAtIs s (i + 4) isPySpace) &&
        digits4At s p2 &&
        (¬ g2 || charAtIs s (p2 + 4) isPySpace) &&
        digits4At s p3 &&
        (i == 0 || ¬ charIsWordAt s (i - 1)) &&
        ¬ charIsWordAt s (p3 + 4))))

/-- Character class `[\s-]` of the card pattern. -/
def cardSepClass (c : Char) : Bool := isPySpace c || c == '-'

/-- Source pattern `\b\d{4}[\s-]?\d{4}[\s-]?\d{4}[\s-]?\d{4}\b`. -/
def cardMatch (s : List Char) : Bool :=
  (List.range (s.length + 1)).any (fun i =>
    [false, true].any (fun g1 =>
      [false, true].any (fun g2 =>
        [false, true].any (fun g3 =>
          let p2 := i + 4 + (if g1 then 1 else 0)
          let p3 := p2 + 4 + (if g2 then 1 else 0)
          let p4 := p3 + 4 + (if g3 then 1 else 0)
          digits4At s i &&
          (¬ g1 || charAtIs s (i + 4) cardSepClass) &&
          digits4At s p2 &&
          (¬ g2 || charAtIs s (p2 + 4) cardSepClass) &&
          digits4At s p3 &&
          (¬ g3 || charAtIs s (p3 + 4) cardSepClass) &&
          digits4At s p4 &&
          (i == 0 || ¬ charIsWordAt s (i - 1)) &&
          ¬ charIsWordAt s (p4 + 4)))))

/-- Source `contains_personal_info(message)`. -/
def contains_personal_info (message : String) : Bool :=
  phoneMatch message.data || emailMatch message.data ||
  aadharMatch message.data || cardMatch message.data

/-! ## Main guardrail check (guardrails.check_guardrails) -/

structure GuardrailResult where
  is_safe : Bool
  message : String
  failed_check : Option String
deriving DecidableEq, Repr

/-- Source `check_guardrails(message)`: the six checks in their fixed order,
the first failure short-circuiting. -/
def check_guardrails (message : String) : GuardrailResult :=
  let v := is_valid_input message
  if ¬ v.1 then
    ⟨false, v.2, some "input_validation"⟩
  else if is_spam message then
    ⟨false, "Please send a proper message without excessive repetition.",
      some "spam_detection"⟩
  else if contains_blocked_words message then
    ⟨false, BLOCKED_CONTENT_MESSAGE, some "blocked_words"⟩
  else if is_personal_question message then
    ⟨false, PERSONAL_QUESTION_MESSAGE, some "personal_question"⟩
  else if is_off_topic message then
    ⟨false, OFF_TOPIC_MESSAGE, some "off_topic"⟩
  else if contains_personal_info message then
    ⟨false, PRIVACY_MESSAGE, some "personal_info"⟩
  else
    ⟨true, "", none⟩

/-! ## Rule engine: text preprocessing (rule_engine.py) -/

/-- Source `re.sub(r'[^\w\s]', '', text)`: drop characters that are neither
word characters nor whitespace. -/
def stripNonWord (s : String) : String :=
  String.mk (s.data.filter (fun c => isWordChar c || isPySpace c))

/-- Source `preprocess_text(text)`: lower-case, strip punctuation, collapse
whitespace (`' '.join(text.split())`). -/
def preprocess_text (text : String) : String :=
  joinWith " " (pySplit (stripNonWord (pyLower text)))

/-- The stop-word set of `get_keywords` (a Python set literal; only
membership is used, so a list is an adequate model). -/
def STOP_WORDS : List String :=
  ["i", "me", "my", "we", "our", "you", "your", "he", "she", "it",
   "the", "a", "an", "is", "are", "was", "were", "be", "been", "being",
   "have", "has", "had", "do", "does", "did", "will", "would", "could",
   "should", "can", "may", "might", "must", "shall", "to", "of", "in",
   "for", "on", "with", "at", "by", "from", "as", "into", "through",
   "and", "but", "or", "so", "if", "then", "than", "when", "where",
   "what", "which", "who", "whom", "this", "that", "these", "those",
   "am", "about", "please", "tell", "know", "want", "need", "like",
   "get", "give", "make", "how", "there", "here", "just", "also", "show"]

/-- Source `get_keywords(text)`: preprocess, split, drop stop words. -/
def get_keywords (text : String) : List String :=
  (pySplit (preprocess_text text)).filter (fun word => ¬ STOP_WORDS.contains word)

/-! ## Rule engine: data model

JSON-backed stores, loaded per request and treated as read-only.  Fields
the source reads with `dict[k]` on well-formed admin data are total fields;
fields read with `.get(k, default)` are `Option`s.  The student profile is
caller-supplied JSON: each field is `Option`al, `none` modelling an absent
key (so that Python's `profile['semester']` on an absent key is an
`Except.error`, i.e. an escaping KeyError), and values are modelled by
their f-string rendering. -/

structure Profile where
  dept : Option String := none
  deptName : Option String := none
  semester : Option String := none
  section_ : Option String := none
deriving DecidableEq, Repr

structure RoomInfo where
  floor : String
  wing : String
  rtype : String
  capacity : String
deriving DecidableEq, Repr

structure NotifTarget where
  dept : Option String := none
  semester : Option String := none
  section_ : Option String := none
deriving DecidableEq, Repr

structure Notification where
  title : String
  nmessage : String
  date : String
  priority : Option String := none
  ntype : Option String := none
  target : NotifTarget := {}
deriving DecidableEq, Repr

structure Exam where
  name : String
  date : String
  target : Option String := none
deriving DecidableEq, Repr

structure ExamSchedule where
  internal_exams : Option String := none
  odd_semester_exams : Option String := none
  even_semester_exams : Option String := none
  upcoming : List Exam := []
deriving DecidableEq, Repr

structure Faculty where
  name : String
  subject : String
  cabin : String
deriving DecidableEq, Repr

structure CustomSection where
  name : Option String := none
  keywords : List String := []
  content : Option String := none
deriving DecidableEq, Repr

structure PeriodTiming where
  period : String
  startT : String
  endT : String
deriving DecidableEq, Repr

structure AdminData where
  timetables : List (String × List (String × List String)) := []
  room_directory : List (String × RoomInfo) := []
  notifications : List Notification := []
  exam_schedule : Option ExamSchedule := none
  faculty : List (String × List Faculty) := []
  custom_sections : List CustomSection := []
  period_timings : List PeriodTiming := []
  last_updated : Option String := none
deriving DecidableEq, Repr

structure Intent where
  tag : Option String := none
  patterns : List String := []
  responses : List String := []
deriving DecidableEq, Repr

structure MatchResult where
  found : Bool
  answer : Option String
  confidence : ℚ
  intent : Option String
deriving DecidableEq, Repr

/-- Association-list lookup, Python `d[k]` / `k in d` on an
insertion-ordered dict. -/
def alookup (l : List (String × α)) (k : String) : Option α :=
  (l.find? (fun kv => kv.1 = k)).map (fun kv => kv.2)

/-- Python `profile['<key>']` on an `Option` field: absent key raises. -/
def pySubscript (v : Option String) (key : String) : Except String String :=
  match v with
  | some s => Except.ok s
  | none => Except.error ("KeyError: " ++ key)

/-- Truthiness of `profile and profile.get('dept')`. -/
def deptTruthy (profile : Option Profile) : Option String :=
  match profile with
  | none => none
  | some p =>
    match p.dept with
    | some d => if d = "" then none else some d
    | none => none

/-- Python `enumerate(classes, 1)`. -/
def enum1 (l : List α) : List (Nat × α) :=
  l.enum.map (fun ia => (ia.1 + 1, ia.2))

/-! ## Rule engine: personalized lookups -/

/-- Rendering of one weekday block of the full timetable. -/
def timetableDayBlock (schedule : List (String × List String)) (day : String) : String :=
  match alookup schedule day with
  | none => ""
  | some classes =>
    "**" ++ day ++ ":**\n" ++
    String.join ((enum1 classes).map (fun ic =>
      "- Period " ++ toString (ic.1 * 2 - 1) ++ "-" ++ toString (ic.1 * 2) ++ ": " ++ ic.2 ++ "\n")) ++
    "\n"

/-- Source `get_personalized_timetable(admin_data, profile)`.  Returns
`ok none` where the Python function returns `None`, and `error` where the
Python f-string key construction raises KeyError (absent profile key). -/
def get_personalized_timetable (admin_data : AdminData) (profile : Option Profile) :
    Except String (Option String) :=
  match deptTruthy profile with
  | none => Except.ok none
  | some _ =>
    match profile with
    | none => Except.ok none
    | some p => do
      let d ← pySubscript p.dept "dept"
      let sem ← pySubscript p.semester "semester"
      let sec ← pySubscript p.section_ "section"
      let timetable_key := d ++ "_" ++ sem ++ "_" ++ sec
      match alookup admin_data.timetables timetable_key with
      | none =>
        return some ("No timetable found for " ++ p.deptName.getD d ++ " Semester " ++ sem ++
          " Section " ++ sec ++ ".\n\nPlease contact the admin to add your timetable.")
      | some schedule =>
        let last_updated := admin_data.last_updated.getD "N/A"
        let header := "**YOUR TIMETABLE**\n(" ++ p.deptName.getD d ++ " | Sem " ++ sem ++
          " | Sec " ++ sec ++ ")\nLast Updated: " ++ last_updated ++ "\n\n"
        let timings :=
          if admin_data.period_timings = [] then ""
          else "**Period Timings:**\n" ++
            String.join (admin_data.period_timings.map (fun t =>
              "- Period " ++ t.period ++ ": " ++ t.startT ++ " - " ++ t.endT ++ "\n")) ++ "\n"
        let days := ["Monday", "Tuesday", "Wednesday", "Thursday", "Friday"]
        let weekly := "**Weekly Schedule:**\n\n" ++
          String.join (days.map (fun day => timetableDayBlock schedule day))
        return some (header ++ timings ++ weekly)

/-- Source `get_todays_classes(admin_data, profile)`, with the current
weekday name (`datetime.now().strftime('%A')`) passed explicitly. -/
def get_todays_classes (admin_data : AdminData) (today : String) (profile : Option Profile) :
    Except String String :=
  match deptTruthy profile with
  | none =>
    Except.ok ("Please set your profile (dept/sem/section) to see today" ++ apos ++ "s classes.")
  | some _ =>
    match profile with
    | none =>
      Except.ok ("Please set your profile (dept/sem/section) to see today" ++ apos ++ "s classes.")
    | some p => do
      let d ← pySubscript p.dept "dept"
      let sem ← pySubscript p.semester "semester"
      let sec ← pySubscript p.section_ "section"
      let timetable_key := d ++ "_" ++ sem ++ "_" ++ sec
      match alookup admin_data.timetables timetable_key with
      | none => return "No timetable found for your class."
      | some schedule =>
        match alookup schedule today with
        | none => return "No classes scheduled for today (" ++ today ++ ")."
        | some classes =>
          return "**TODAY" ++ apos ++ "S CLASSES (" ++ today ++ ")**\n" ++
            p.deptName.getD d ++ " | Sem " ++ sem ++ " | Sec " ++ sec ++ "\n\n" ++
            String.join ((enum1 classes).map (fun ic =>
              "- Period " ++ toString (ic.1 * 2 - 1) ++ "-" ++ toString (ic.1 * 2) ++ ": " ++ ic.2 ++ "\n"))

/-! ## Rule engine: room location -/

/-- Longest digit run at the head of `l` (regex `\d+`), `none` if empty. -/
def leadingDigits (l : List Char) : Option (List Char) :=
  let ds := l.takeWhile (fun c => c.isDigit)
  if ds = [] then none else some ds

/-- Match of `room\s*(?:no\.?\s*)?(\d+)` anchored at position `i`; returns
the captured digit group.  Greedy `\s*` runs are forced (whitespace cannot
stand in for `n`/`.`/digits), and the optional `no\.?\s*` group backtracks
from with-dot to without-dot to absent, as the CPython engine does. -/
def roomPatAt (s : List Char) (i : Nat) : Option (List Char) :=
  if "room".data.isPrefixOf (s.drop i) then
    let r1 := (s.drop (i + 4)).dropWhile isPySpace
    let viaNo : Option (List Char) :=
      match r1 with
      | 'n' :: 'o' :: r2 =>
        (match r2 with
         | '.' :: r3 => leadingDigits (r3.dropWhile isPySpace)
         | _ => none).orElse
          (fun _ => leadingDigits (r2.dropWhile isPySpace))
      | _ => none
    viaNo.orElse (fun _ => leadingDigits r1)
  else none

/-- Leftmost result of scanning `f` over start positions. -/
def scanFirst (s : List Char) (f : List Char → Nat → Option α) : Option α :=
  (List.range (s.length + 1)).findSome? (fun i => f s i)

/-- Match of `(\d{3})` anchored at `i`. -/
def threeDigitsAt (s : List Char) (i : Nat) : Option (List Char) :=
  match (s.drop i).take 3 with
  | [a, b, c] => if a.isDigit && b.isDigit && c.isDigit then some [a, b, c] else none
  | _ => none

/-- Match of `(lab\s*\d+)` anchored at `i`; the group is the whole match. -/
def labPatAt (s : List Char) (i : Nat) : Option (List Char) :=
  if "lab".data.isPrefixOf (s.drop i) then
    let rest := s.drop (i + 3)
    let ws := rest.takeWhile isPySpace
    match leadingDigits (rest.dropWhile isPySpace) with
    | some ds => some ("lab".data ++ ws ++ ds)
    | none => none
  else none

/-- The room-token extraction loop of `get_room_location`: the three regex
patterns tried in order, first search hit wins. -/
def extractRoomNum (query_lower : List Char) : Option String :=
  match scanFirst query_lower roomPatAt with
  | some g => some (String.mk g)
  | none =>
    match scanFirst query_lower threeDigitsAt with
    | some g => some (String.mk g)
    | none => (scanFirst query_lower labPatAt).map String.mk

/-- Rendering of the first-10-rooms directory listing. -/
def roomDirectoryListing (rd : List (String × RoomInfo)) : String :=
  "**ROOM DIRECTORY:**\n\n" ++
  String.join ((rd.take 10).map (fun kv =>
    "- **Room " ++ kv.1 ++ "**: " ++ kv.2.floor ++ ", " ++ kv.2.wing ++
    " (" ++ kv.2.rtype ++ ")\n")) ++
  "\n...and more. Ask about a specific room number."

/-- Rendering of a single room's details. -/
def formatRoom (key : String) (info : RoomInfo) : String :=
  "**Room " ++ key ++ "**\n\n- **Floor:** " ++ info.floor ++
  "\n- **Wing:** " ++ info.wing ++ "\n- **Type:** " ++ info.rtype ++
  "\n- **Capacity:** " ++ info.capacity ++ " students\n"

/-- Source `get_room_location(admin_data, room_query)`.  After the regex
loop, the exact-key substring loop unconditionally overrides the extracted
token with the first directory key occurring in the query. -/
def get_room_location (admin_data : AdminData) (room_query : String) : Option String :=
  let rd := admin_data.room_directory
  if rd = [] then none
  else
    let query_lower := pyLower room_query
    let fromRegex := extractRoomNum query_lower.data
    let fromKeys := (rd.find? (fun kv => pyIn (pyLower kv.1) query_lower)).map (fun kv => kv.1)
    let room_num := fromKeys.orElse (fun _ => fromRegex)
    match room_num with
    | none =>
      if ["room", "where", "location", "building"].any (fun kw => pyIn kw query_lower) then
        some (roomDirectoryListing rd)
      else none
    | some rn =>
      match rd.find? (fun kv => pyLower kv.1 = pyLower rn ∨ kv.1 = rn) with
      | some kv => some (formatRoom kv.1 kv.2)
      | none => some ("Room " ++ rn ++ " not found in directory. Please check with the admin office.")

/-! ## Rule engine: notifications, exams, faculty, custom sections -/

/-- Source `get_student_notifications(admin_data, profile)`.  The per-entry
target comparison subscripts `profile['semester']` / `profile['section']`,
so those reads happen (and can raise) only when the notification list is
nonempty, as in the source loop. -/
def get_student_notifications (admin_data : AdminData) (profile : Option Profile) :
    Except String String :=
  match deptTruthy profile with
  | none => Except.ok "Please set your profile to see notifications."
  | some _ =>
    match profile with
    | none => Except.ok "Please set your profile to see notifications."
    | some p =>
      if admin_data.notifications = [] then Except.ok "No notifications at the moment."
      else do
        let d ← pySubscript p.dept "dept"
        let sem ← pySubscript p.semester "semester"
        let sec ← pySubscript p.section_ "section"
        let my_notifications := admin_data.notifications.filter (fun notif =>
          (notif.target.dept = some "all" ∨ notif.target.dept = some d) ∧
          (notif.target.semester = some "all" ∨ notif.target.semester = some sem) ∧
          (notif.target.section_ = some "all" ∨ notif.target.section_ = some sec))
        if my_notifications = [] then
          return "No notifications for you at the moment."
        else
          return "**YOUR NOTIFICATIONS:**\n\n" ++
            String.join (my_notifications.map (fun notif =>
              let priority_tag := if notif.priority = some "high" then "[IMPORTANT] " else ""
              let notif_type := pyUpper (notif.ntype.getD "info")
              "**" ++ priority_tag ++ notif.title ++ "** (" ++ notif_type ++ ")\n" ++
              notif.nmessage ++ "\nDate: " ++ notif.date ++ "\n\n"))

/-- Source `get_exam_schedule(admin_data, profile)`. -/
def get_exam_schedule (admin_data : AdminData) (profile : Option Profile) : Option String :=
  match admin_data.exam_schedule with
  | none => none
  | some es =>
    let header := "**EXAMINATION SCHEDULE:**\n\n- Internal Exams: " ++
      es.internal_exams.getD "N/A" ++ "\n- Odd Semester Exams: " ++
      es.odd_semester_exams.getD "N/A" ++ "\n- Even Semester Exams: " ++
      es.even_semester_exams.getD "N/A" ++ "\n\n"
    let upcomingPart :=
      if es.upcoming = [] then ""
      else "**Upcoming Exams:**\n" ++
        String.join (es.upcoming.map (fun exam =>
          let target := exam.target.getD "all"
          match deptTruthy profile with
          | some d =>
            if target = "all" ∨ pyIn d target then
              "- " ++ exam.name ++ ": " ++ exam.date ++ "\n"
            else ""
          | none => "- " ++ exam.name ++ ": " ++ exam.date ++ "\n"))
    some (header ++ upcomingPart)

/-- Rendering of the all-departments faculty listing (the else branch of
`get_faculty_info`). -/
def facultyAllDepts (admin_data : AdminData) : String :=
  "**FACULTY INFORMATION:**\n\n" ++
  String.join (admin_data.faculty.map (fun kv =>
    "**" ++ kv.1 ++ " Department:**\n" ++
    String.join (kv.2.map (fun f => "- " ++ f.name ++ " (" ++ f.subject ++ ")\n")) ++ "\n"))

/-- Source `get_faculty_info(admin_data, profile)`. -/
def get_faculty_info (admin_data : AdminData) (profile : Option Profile) : Option String :=
  if admin_data.faculty = [] then none
  else
    let dept := profile.bind (fun p => p.dept)
    match dept with
    | some d =>
      if d ≠ "" then
        match alookup admin_data.faculty d with
        | some faculty_list =>
          some ("**" ++ ((profile.bind (fun p => p.deptName)).getD d) ++ " FACULTY:**\n\n" ++
            String.join (faculty_list.map (fun f =>
              "- **" ++ f.name ++ "**\n  Subject: " ++ f.subject ++
              "\n  Cabin: " ++ f.cabin ++ "\n\n")))
        | none => some (facultyAllDepts admin_data)
      else some (facultyAllDepts admin_data)
    | none => some (facultyAllDepts admin_data)

/-- Source `get_custom_section_response(admin_data, user_keywords)`: the
first section sharing at least one keyword with the query keywords. -/
def get_custom_section_response (admin_data : AdminData) (user_keywords : List String) :
    Option String :=
  (admin_data.custom_sections.find? (fun s =>
      user_keywords.any (fun kw => s.keywords.contains kw))).map
    (fun s => "**" ++ pyUpper (s.name.getD "Information") ++ ":**\n\n" ++ s.content.getD "")

/-! ## Rule engine: knowledge-base similarity matching -/

/-- Round-half-to-even integer rounding on `ℚ`. -/
def roundHalfEven (q : ℚ) : ℤ :=
  let f := ⌊q⌋
  let frac := q - f
  if frac < 1/2 then f
  else if 1/2 < frac then f + 1
  else if f % 2 = 0 then f else f + 1

/-- Python `round(x, 2)` (round-half-to-even at two decimals). -/
def pyRound2 (q : ℚ) : ℚ := (roundHalfEven (100 * q) : ℚ) / 100

/-- The per-pattern blended score of the knowledge-base loop:
`0.4 * string_similarity + 0.6 * keyword_similarity`, with the
full-coverage floor of `0.85`.  `ratio` stands for
`difflib.SequenceMatcher(None, processed_query, processed_pattern).ratio()`;
`keyword_matches` counts the elements of `user_keywords` occurring in
`pattern_keywords` (source `sum(1 for kw in user_keywords if kw in
pattern_keywords)`). -/
def patternScore (ratio : String → String → ℚ) (processed_query : String)
    (user_keywords : List String) (pattern : String) : ℚ :=
  let processed_pattern := preprocess_text pattern
  let pattern_keywords := get_keywords pattern
  let string_similarity := ratio processed_query processed_pattern
  let keyword_similarity : ℚ :=
    if pattern_keywords = [] then 0
    else ((user_keywords.filter (fun kw => pattern_keywords.contains kw)).length : ℚ) /
      (pattern_keywords.length : ℚ)
  let combined_score := string_similarity * (4/10) + keyword_similarity * (6/10)
  if pattern_keywords ≠ [] ∧ pattern_keywords.all (fun kw => user_keywords.contains kw) then
    max combined_score (85/100)
  else combined_score

structure BestMatch where
  score : ℚ
  intent : Option String
  responses : List String
deriving DecidableEq, Repr

/-- One update step of the best-match loop (`if combined_score >
best_match["score"]`, strictly greater, so ties keep the earlier hit). -/
def kbStep (ratio : String → String → ℚ) (processed_query : String)
    (user_keywords : List String) (best : BestMatch) (intent : Intent)
    (pattern : String) : BestMatch :=
  if best.score < patternScore ratio processed_query user_keywords pattern then
    ⟨patternScore ratio processed_query user_keywords pattern,
     some (intent.tag.getD "unknown"), intent.responses⟩
  else best

/-- The nested best-match loop over all intents and their patterns. -/
def kbBest (ratio : String → String → ℚ) (processed_query : String)
    (user_keywords : List String) (intents : List Intent) : BestMatch :=
  intents.foldl
    (fun best intent =>
      intent.patterns.foldl
        (fun best pattern => kbStep ratio processed_query user_keywords best intent pattern)
        best)
    ⟨0, none, []⟩

/-- The final knowledge-base stage of `find_answer` (priority 8): threshold
check, random response selection (`choice` models `random.choice`), and the
not-found result that still reports the rounded best score. -/
def kbResult (ratio : String → String → ℚ) (choice : List String → String)
    (intents : List Intent) (user_message : String) : MatchResult :=
  let processed_query := preprocess_text user_message
  let user_keywords := get_keywords user_message
  let best := kbBest ratio processed_query user_keywords intents
  if SIMILARITY_THRESHOLD ≤ best.score ∧ best.responses ≠ [] then
    ⟨true, some (choice best.responses), pyRound2 best.score, best.intent⟩
  else
    ⟨false, none, pyRound2 best.score, none⟩

/-! ## Rule engine: main matching function (rule_engine.find_answer) -/

/-- The environment of external capabilities and stores `find_answer`
consumes: the JSON-backed stores, the current weekday, the random choice,
and the stdlib similarity ratio. -/
structure Env where
  adminData : AdminData
  kb : List Intent
  today : String
  choice : List String → String
  ratio : String → String → ℚ

/-- Sequential early-return composition of the priority stages: an earlier
stage that produced a result (or raised) wins; `ok none` falls through. -/
def orElseE (x : Except String (Option MatchResult))
    (next : Unit → Except String MatchResult) : Except String MatchResult :=
  match x with
  | Except.error e => Except.error e
  | Except.ok (some r) => Except.ok r
  | Except.ok none => next ()

/-- The priority-1 trigger: a room keyword among the extracted keywords, or
a 3-digit run in the lowered query. -/
def roomTriggered (user_keywords : List String) (query_lower : String) : Bool :=
  ["room", "where", "location", "floor", "wing", "lab", "find"].any
    (fun kw => user_keywords.contains kw) ||
  (scanFirst query_lower.data threeDigitsAt).isSome

/-- The priority-2 trigger: a today/now marker as substring of the lowered
query, and a class/timetable keyword among the extracted keywords. -/
def todaysTriggered (user_keywords : List String) (query_lower : String) : Bool :=
  ["today", "today" ++ apos ++ "s", "now", "current class"].any
    (fun kw => pyIn kw query_lower) &&
  ["class", "classes", "timetable", "schedule"].any
    (fun kw => user_keywords.contains kw)

/-- Source `find_answer(user_message, profile)`.  `Except.error` models a
Python exception (KeyError on a malformed profile) escaping the function. -/
def find_answer (env : Env) (user_message : String) (profile : Option Profile) :
    Except String MatchResult :=
  let user_keywords := get_keywords user_message
  let query_lower := pyLower user_message
  let admin_data := env.adminData
  orElseE
    (Except.ok (if roomTriggered user_keywords query_lower then
      (get_room_location admin_data user_message).map
        (fun r => ⟨true, some r, 95/100, some "room_location"⟩)
    else none)) (fun _ =>
  orElseE
    (if todaysTriggered user_keywords query_lower then
      (get_todays_classes admin_data env.today profile).map
        (fun resp => some ⟨true, some resp, 95/100, some "todays_classes"⟩)
    else Except.ok none) (fun _ =>
  orElseE
    (if ["timetable", "schedule", "classes", "weekly"].any
        (fun kw => user_keywords.contains kw) then
      match deptTruthy profile with
      | some _ =>
        (get_personalized_timetable admin_data profile).map
          (fun o => o.map (fun resp => ⟨true, some resp, 95/100, some "timetable"⟩))
      | none =>
        Except.ok (some ⟨true,
          some "Please set your profile (Department, Semester, Section) to see your personalized timetable.",
          95/100, some "profile_required"⟩)
    else Except.ok none) (fun _ =>
  orElseE
    (if ["notification", "notifications", "notice", "update", "updates", "announcement"].any
        (fun kw => user_keywords.contains kw) then
      (get_student_notifications admin_data profile).map
        (fun resp => some ⟨true, some resp, 95/100, some "notifications"⟩)
    else Except.ok none) (fun _ =>
  orElseE
    (Except.ok (if ["exam", "exams", "examination", "test", "midterm", "final"].any
        (fun kw => user_keywords.contains kw) then
      (get_exam_schedule admin_data profile).map
        (fun resp => ⟨true, some resp, 95/100, some "exam_schedule"⟩)
    else none)) (fun _ =>
  orElseE
    (Except.ok (if ["faculty", "teacher", "professor", "prof", "staff", "cabin"].any
        (fun kw => user_keywords.contains kw) then
      (get_faculty_info admin_data profile).map
        (fun resp => ⟨true, some resp, 9/10, some "faculty"⟩)
    else none)) (fun _ =>
  orElseE
    (Except.ok ((get_custom_section_response admin_data user_keywords).map
      (fun resp => ⟨true, some resp, 9/10, some "custom_section"⟩))) (fun _ =>
  Except.ok (kbResult env.ratio env.choice env.kb user_message))))))))

/-! ## AI fallback adapter (src/utils/ai_fallback.py)

The external completion call is abstracted as a `ProviderOutcome`: either
the raw completion text extracted from the provider response, or an error
of some kind (transport, auth, quota, timeout, malformed response — every
`except` clause of the source).  API keys and library-availability flags
are configuration parameters. -/

structure AIResult where
  success : Bool
  answer : String
deriving DecidableEq, Repr

inductive ProviderOutcome where
  | ok (content : String)
  | err (kind : String)
deriving DecidableEq, Repr

/-- The fixed out-of-scope indicator list of `is_response_out_of_scope`. -/
def OUT_OF_SCOPE_INDICATORS : List String :=
  ["political party", "vote for", "election", "religious belief",
   "god", "prayer", "worship",
   "relationship advice", "dating tips", "love life",
   "stock market", "cryptocurrency", "bitcoin", "invest in",
   "medical diagnosis", "prescription", "you should take",
   "legal advice", "lawyer", "sue them"]

/-- Source `is_response_out_of_scope(response)`. -/
def is_response_out_of_scope (response : String) : Bool :=
  OUT_OF_SCOPE_INDICATORS.any (fun indicator => pyIn indicator (pyLower response))

/-- Source `get_openai_response(user_message)`. -/
def get_openai_response (openaiAvailable : Bool) (apiKey : String)
    (outcome : ProviderOutcome) : AIResult :=
  if ¬ openaiAvailable then ⟨false, FALLBACK_MESSAGE⟩
  else if apiKey = "" ∨ apiKey = "your-openai-api-key-here" then ⟨false, FALLBACK_MESSAGE⟩
  else
    match outcome with
    | ProviderOutcome.err _ => ⟨false, FALLBACK_MESSAGE⟩
    | ProviderOutcome.ok content =>
      let ai_answer := pyStrip content
      if ai_answer = "" then ⟨false, FALLBACK_MESSAGE⟩
      else if is_response_out_of_scope ai_answer then ⟨true, OFF_TOPIC_MESSAGE⟩
      else ⟨true, ai_answer⟩

/-- Source `get_gemini_rest_response(user_message)` (the REST fallback used
when the Gemini library is not installed).  Note: unlike the other three
provider paths, it has no empty-completion check. -/
def get_gemini_rest_response (apiKey : String) (outcome : ProviderOutcome) : AIResult :=
  if apiKey = "" ∨ apiKey = "your-gemini-api-key-here" then ⟨false, FALLBACK_MESSAGE⟩
  else
    match outcome with
    | ProviderOutcome.err _ => ⟨false, FALLBACK_MESSAGE⟩
    | ProviderOutcome.ok content =>
      let ai_answer := pyStrip content
      if is_response_out_of_scope ai_answer then ⟨true, OFF_TOPIC_MESSAGE⟩
      else ⟨true, ai_answer⟩

/-- Source `get_gemini_response(user_message)`. -/
def get_gemini_response (geminiAvailable : Bool) (apiKey : String)
    (outcome : ProviderOutcome) : AIResult :=
  if ¬ geminiAvailable then get_gemini_rest_response apiKey outcome
  else if apiKey = "" ∨ apiKey = "your-gemini-api-key-here" then ⟨false, FALLBACK_MESSAGE⟩
  else
    match outcome with
    | ProviderOutcome.err _ => ⟨false, FALLBACK_MESSAGE⟩
    | ProviderOutcome.ok content =>
      let ai_answer := pyStrip content
      if ai_answer = "" then ⟨false, FALLBACK_MESSAGE⟩
      else if is_response_out_of_scope ai_answer then ⟨true, OFF_TOPIC_MESSAGE⟩
      else ⟨true, ai_answer⟩

/-- Source `get_groq_response(user_message)` (the three `except` clauses —
timeout, request exception, generic — all return the same fallback and are
collapsed into `ProviderOutcome.err`). -/
def get_groq_response (apiKey : String) (outcome : ProviderOutcome) : AIResult :=
  if apiKey = "" ∨ apiKey = "your-groq-api-key-here" then ⟨false, FALLBACK_MESSAGE⟩
  else
    match outcome with
    | ProviderOutcome.err _ => ⟨false, FALLBACK_MESSAGE⟩
    | ProviderOutcome.ok content =>
      let ai_answer := pyStrip content
      if ai_answer = "" then ⟨false, FALLBACK_MESSAGE⟩
      else if is_response_out_of_scope ai_answer then ⟨true, OFF_TOPIC_MESSAGE⟩
      else ⟨true, ai_answer⟩

/-- Source `get_ai_response(user_message)`: provider routing on
`config.LLM_PROVIDER.lower()`. -/
def get_ai_response (provider : String) (openaiAvailable geminiAvailable : Bool)
    (openaiKey geminiKey groqKey : String) (outcome : ProviderOutcome) : AIResult :=
  let p := pyLower provider
  if p = "openai" then get_openai_response openaiAvailable openaiKey outcome
  else if p = "gemini" then get_gemini_response geminiAvailable geminiKey outcome
  else if p = "groq" then get_groq_response groqKey outcome
  else ⟨false, FALLBACK_MESSAGE⟩

/-! ## Dispatcher (src/app.py, route /chat)

The `/chat` handler: strip the message, short-circuit on empty, run the
guardrails, then the rule engine, then (only if nothing was found) the AI
adapter.  The adapter round trip is abstracted as `ai : String → AIResult`
(the value of `get_ai_response` for the configured provider). -/

structure ChatResponse where
  response : String
  source : String
deriving DecidableEq, Repr

/-- Source `chat()` (app.py): the dispatcher over one request body. -/
def chat (env : Env) (ai : String → AIResult) (rawMessage : String)
    (profile : Option Profile) : Except String ChatResponse :=
  let user_message := pyStrip rawMessage
  if user_message = "" then
    Except.ok ⟨"Please enter a message.", "system"⟩
  else
    let guardrail_result := check_guardrails user_message
    if ¬ guardrail_result.is_safe then
      Except.ok ⟨guardrail_result.message, "guardrail"⟩
    else
      match find_answer env user_message profile with
      | Except.error e => Except.error e
      | Except.ok rule_result =>
        if rule_result.found then
          Except.ok ⟨rule_result.answer.getD "", "knowledge_base"⟩
        else
          let ai_result := ai user_message
          Except.ok ⟨ai_result.answer, if ai_result.success then "ai" else "fallback"⟩

/-! ## Shared concrete instances for witnesses and counterexamples -/

/-- An environment with empty stores, a fixed weekday, first-element choice
and a constant similarity ratio. -/
def defaultEnv : Env :=
  { adminData := {}, kb := [], today := "Monday",
    choice := fun l => l.headD "", ratio := fun _ _ => 0 }

/-- An AI adapter stub that always fails (e.g. the shipped placeholder keys). -/
def defaultAI : String → AIResult := fun _ => ⟨false, FALLBACK_MESSAGE⟩

/-- Every configured blocked word is nonempty. -/
theorem blocked_words_nonempty : ∀ w ∈ BLOCKED_WORDS, w.data ≠ [] := by decide

/-! ## Claims about the dispatcher and the guardrail filter -/

/-- C1: the dispatcher composes the three layers in strict order with
short-circuiting: a message that strips to empty yields the fixed prompt
with source "system"; otherwise an unsafe guardrail verdict yields the
guardrail message with source "guardrail" (the right-hand sides of these
two cases are independent of the rule-engine environment and of the AI
adapter, so neither runs); otherwise a found rule-engine result is returned
with source "knowledge_base" (independent of the AI adapter); otherwise the
AI adapter's answer is returned with source "ai" on success and "fallback"
on failure. -/
theorem C1_dispatcher_order (env : Env) (ai : String → AIResult)
    (rawMessage : String) (profile : Option Profile) :
    (pyStrip rawMessage = "" →
      chat env ai rawMessage profile = Except.ok ⟨"Please enter a message.", "system"⟩) ∧
    (pyStrip rawMessage ≠ "" → (check_guardrails (pyStrip rawMessage)).is_safe = false →
      chat env ai rawMessage profile =
        Except.ok ⟨(check_guardrails (pyStrip rawMessage)).message, "guardrail"⟩) ∧
    (∀ r : MatchResult, pyStrip rawMessage ≠ "" →
      (check_guardrails (pyStrip rawMessage)).is_safe = true →
      find_answer env (pyStrip rawMessage) profile = Except.ok r → r.found = true →
      chat env ai rawMessage profile = Except.ok ⟨r.answer.getD "", "knowledge_base"⟩) ∧
    (∀ r : MatchResult, pyStrip rawMessage ≠ "" →
      (check_guardrails (pyStrip rawMessage)).is_safe = true →
      find_answer env (pyStrip rawMessage) profile = Except.ok r → r.found = false →
      chat env ai rawMessage profile =
        Except.ok ⟨(ai (pyStrip rawMessage)).answer,
          if (ai (pyStrip rawMessage)).success then "ai" else "fallback"⟩) := by
  refine ⟨?_, ?_, ?_, ?_⟩
  · intro h
    simp [chat, h]
  · intro h1 h2
    simp [chat, h1, h2]
  · intro r h1 h2 h3 h4
    simp [chat, h1, h2, h3, h4]
  · intro r h1 h2 h3 h4
    simp [chat, h1, h2, h3, h4]

/-- Witness for C1 at concrete inputs: a whitespace-only message takes the
"system" short-circuit, and a message failing the guardrails takes the
"guardrail" short-circuit. -/
theorem C1_dispatcher_order_witness :
    chat defaultEnv defaultAI "   " none = Except.ok ⟨"Please enter a message.", "system"⟩ ∧
    chat defaultEnv defaultAI " hack the election " none =
      Except.ok ⟨BLOCKED_CONTENT_MESSAGE, "guardrail"⟩ := by
  constructor
  · exact (C1_dispatcher_order defaultEnv defaultAI "   " none).1 (by decide)
  · have h := (C1_dispatcher_order defaultEnv defaultAI " hack the election " none).2.1
      (by decide) (by decide)
    rw [h]
    have hm : (check_guardrails (pyStrip " hack the election ")).message =
        BLOCKED_CONTENT_MESSAGE := by decide
    rw [hm]

/-- C2: `check_guardrails` runs its six checks in the fixed order input
validation, spam, blocked words, personal question, off-topic, personal
information; the first failing check fully determines the result (so a
message failing an earlier and a later check reports the earlier one), and
if all six pass the result is safe with no failed check. -/
theorem C2_guardrail_order (message : String) :
    ((is_valid_input message).1 = false →
      check_guardrails message =
        ⟨false, (is_valid_input message).2, some "input_validation"⟩) ∧
    ((is_valid_input message).1 = true → is_spam message = true →
      check_guardrails message =
        ⟨false, "Please send a proper message without excessive repetition.",
          some "spam_detection"⟩) ∧
    ((is_valid_input message).1 = true → is_spam message = false →
      contains_blocked_words message = true →
      check_guardrails message = ⟨false, BLOCKED_CONTENT_MESSAGE, some "blocked_words"⟩) ∧
    ((is_valid_input message).1 = true → is_spam message = false →
      contains_blocked_words message = false → is_personal_question message = true →
      check_guardrails message =
        ⟨false, PERSONAL_QUESTION_MESSAGE, some "personal_question"⟩) ∧
    ((is_valid_input message).1 = true → is_spam message = false →
      contains_blocked_words message = false → is_personal_question message = false →
      is_off_topic message = true →
      check_guardrails message = ⟨false, OFF_TOPIC_MESSAGE, some "off_topic"⟩) ∧
    ((is_valid_input message).1 = true → is_spam message = false →
      contains_blocked_words message = false → is_personal_question message = false →
      is_off_topic message = false → contains_personal_info message = true →
      check_guardrails message = ⟨false, PRIVACY_MESSAGE, some "personal_info"⟩) ∧
    ((is_valid_input message).1 = true → is_spam message = false →
      contains_blocked_words message = false → is_personal_question message = false →
      is_off_topic message = false → contains_personal_info message = false →
      check_guardrails message = ⟨true, "", none⟩) := by
  refine ⟨?_, ?_, ?_, ?_, ?_, ?_, ?_⟩ <;>
    intros <;> simp [check_guardrails, *]

/-- Witness for C2: "hack the election" fails both the blocked-word check
(3rd) and the off-topic check (5th); the earlier blocked-word verdict is
reported. -/
theorem C2_guardrail_order_witness :
    check_guardrails "hack the election" =
      ⟨false, BLOCKED_CONTENT_MESSAGE, some "blocked_words"⟩ ∧
    is_off_topic "hack the election" = true := by
  constructor
  · exact (C2_guardrail_order "hack the election").2.2.1 (by decide) (by decide) (by decide)
  · decide

/-- C8: the blocked-word check fires exactly when some denylisted word
occurs as a whole word (word-boundary, case-insensitive) in the message;
an embedded occurrence such as "hack" inside "hackathon" never fires, a
whole-word occurrence always does, and when the check is the one reached
the returned message is the fixed `BLOCKED_CONTENT_MESSAGE`. -/
theorem C8_blocked_words_whole_word :
    (∀ message : String,
      contains_blocked_words message = true ↔
        ∃ w ∈ BLOCKED_WORDS, ∃ i : Nat,
          wholeWordAt w.data (pyLower message).data i = true) ∧
    (∀ message : String, (is_valid_input message).1 = true → is_spam message = false →
      contains_blocked_words message = true →
      (check_guardrails message).message = BLOCKED_CONTENT_MESSAGE ∧
      (check_guardrails message).failed_check = some "blocked_words") ∧
    contains_blocked_words "hackathon enthusiasts" = false ∧
    contains_blocked_words "I want to hack this" = true := by
  refine ⟨?_, ?_, by decide, by decide⟩
  · intro message
    simp only [contains_blocked_words, List.any_eq_true, wholeWordSearch]
    constructor
    · rintro ⟨w, hw, i, _, hword⟩
      exact ⟨w, hw, i, hword⟩
    · rintro ⟨w, hw, i, hword⟩
      refine ⟨w, hw, i, ?_, hword⟩
      have hpre : w.data.isPrefixOf ((pyLower message).data.drop i) = true := by
        have := hword
        simp only [wholeWordAt, Bool.and_eq_true] at this
        exact this.1.1
      have hw0 : w.data ≠ [] := blocked_words_nonempty w hw
      have hlen : w.data.length ≤ ((pyLower message).data.drop i).length :=
        (List.isPrefixOf_iff_prefix.mp hpre).length_le
      have hw1 : 1 ≤ w.data.length := List.length_pos.mpr hw0
      have : 1 ≤ (pyLower message).data.length - i := by
        have := hlen
        simp only [List.length_drop] at this
        omega
      simp only [List.mem_range]
      omega
  · intro message h1 h2 h3
    simp [check_guardrails, h1, h2, h3]

/-- Witness for C8 at a concrete input: on "I want to hack this" the
whole-word occurrence of "hack" causes the blocked-word verdict with the
fixed message. -/
theorem C8_blocked_words_whole_word_witness :
    (check_guardrails "I want to hack this").message = BLOCKED_CONTENT_MESSAGE ∧
    (check_guardrails "I want to hack this").failed_check = some "blocked_words" :=
  C8_blocked_words_whole_word.2.1 "I want to hack this" (by decide) (by decide) (by decide)

/-! ## Stage lemmas for `find_answer` -/

/-- Composition of priority stages preserves success. -/
theorem orElseE_isOk (x : Except String (Option MatchResult))
    (next : Unit → Except String MatchResult) (hx : x.isOk = true)
    (hnext : (next ()).isOk = true) : (orElseE x next).isOk = true := by
  match x with
  | Except.error e => simp [Except.isOk, Except.toBool] at hx
  | Except.ok none => simpa [orElseE] using hnext
  | Except.ok (some r) => simp [orElseE, Except.isOk, Except.toBool]

/-- If the room stage triggers and the lookup produces a response, it is
returned with intent "room_location" before any later stage runs. -/
theorem find_answer_room_eq (env : Env) (msg : String) (profile : Option Profile)
    (r : String)
    (h1 : roomTriggered (get_keywords msg) (pyLower msg) = true)
    (h2 : get_room_location env.adminData msg = some r) :
    find_answer env msg profile =
      Except.ok ⟨true, some r, 95/100, some "room_location"⟩ := by
  simp [find_answer, orElseE, h1, h2]

/-- If the today's-classes stage triggers, the room stage did not produce a
result, and `get_todays_classes` returns normally, its answer is returned
with intent "todays_classes" and confidence 0.95. -/
theorem find_answer_todays_eq (env : Env) (msg : String) (profile : Option Profile)
    (resp : String)
    (hroom : roomTriggered (get_keywords msg) (pyLower msg) = true →
      get_room_location env.adminData msg = none)
    (htrig : todaysTriggered (get_keywords msg) (pyLower msg) = true)
    (hcls : get_todays_classes env.adminData env.today profile = Except.ok resp) :
    find_answer env msg profile =
      Except.ok ⟨true, some resp, 95/100, some "todays_classes"⟩ := by
  by_cases hr : roomTriggered (get_keywords msg) (pyLower msg)
  · simp [find_answer, orElseE, Except.map, hr, hroom hr, htrig, hcls]
  · simp [find_answer, orElseE, Except.map, hr, htrig, hcls]

/-- If no specialized stage produces a result, `find_answer` returns the
knowledge-base stage's result. -/
theorem find_answer_fallthrough_eq (env : Env) (msg : String) (profile : Option Profile)
    (hroom : roomTriggered (get_keywords msg) (pyLower msg) = true →
      get_room_location env.adminData msg = none)
    (h2 : todaysTriggered (get_keywords msg) (pyLower msg) = false)
    (h3 : (["timetable", "schedule", "classes", "weekly"].any
      (fun kw => (get_keywords msg).contains kw)) = false)
    (h4 : (["notification", "notifications", "notice", "update", "updates",
      "announcement"].any (fun kw => (get_keywords msg).contains kw)) = false)
    (h5 : (["exam", "exams", "examination", "test", "midterm", "final"].any
      (fun kw => (get_keywords msg).contains kw)) = true →
      get_exam_schedule env.adminData profile = none)
    (h6 : (["faculty", "teacher", "professor", "prof", "staff", "cabin"].any
      (fun kw => (get_keywords msg).contains kw)) = true →
      get_faculty_info env.adminData profile = none)
    (h7 : get_custom_section_response env.adminData (get_keywords msg) = none) :
    find_answer env msg profile =
      Except.ok (kbResult env.ratio env.choice env.kb msg) := by
  by_cases hr : roomTriggered (get_keywords msg) (pyLower msg) <;>
  by_cases he : (["exam", "exams", "examination", "test", "midterm", "final"].any
      (fun kw => (get_keywords msg).contains kw)) <;>
  by_cases hf : (["faculty", "teacher", "professor", "prof", "staff", "cabin"].any
      (fun kw => (get_keywords msg).contains kw)) <;>
  simp_all [find_answer, orElseE]

/-! ## Claims C10 (no-profile safety) and C5 (timetable key construction) -/

/-- C10: with no profile supplied, `find_answer` always returns a
`MatchResult` and never raises: every profile-dependent stage guards on
profile presence, so the absence of a profile only selects which textual
answer is produced. -/
theorem C10_no_profile_never_raises (env : Env) (user_message : String) :
    (find_answer env user_message none).isOk = true := by
  simp only [find_answer]
  refine orElseE_isOk _ _ rfl ?_
  refine orElseE_isOk _ _ ?_ ?_
  · split
    · rfl
    · rfl
  refine orElseE_isOk _ _ ?_ ?_
  · split
    · rfl
    · rfl
  refine orElseE_isOk _ _ ?_ ?_
  · split
    · rfl
    · rfl
  refine orElseE_isOk _ _ rfl ?_
  refine orElseE_isOk _ _ rfl ?_
  exact orElseE_isOk _ _ rfl rfl

/-- Admin data with one well-formed timetable, for exercising the key
construction. -/
def c5AdminData : AdminData :=
  { timetables := [("BCA_3_C", [("Monday", ["Math", "Physics"])])] }

/-- A profile whose `dept` is set but whose `semester` and `section` keys
are absent. -/
def c5Profile : Profile := { dept := some "BCA" }

/-- C5: the timetable lookups guard only `dept`; with `dept` set but the
`semester`/`section` keys absent, the f-string key construction subscripts
the missing key and raises KeyError instead of treating the lookup as a
miss (the claim and the spec require a textual not-found answer and no
error).  A present-but-empty field, by contrast, does construct a
non-matching key and degrades to the not-found message. -/
theorem C5_timetable_keyerror :
    get_personalized_timetable c5AdminData (some c5Profile) =
      Except.error "KeyError: semester" ∧
    get_todays_classes c5AdminData "Monday" (some c5Profile) =
      Except.error "KeyError: semester" ∧
    get_todays_classes c5AdminData "Monday"
        (some { dept := some "BCA", semester := some "", section_ := some "" }) =
      Except.ok "No timetable found for your class." := by
  exact ⟨rfl, rfl, rfl⟩

/-! ## Claim C7: AI adapter failure mapping -/

/-- C7 counterexample: on the Gemini REST path a (configured-key) request
whose completion is empty is returned with `success = true` and the empty
answer, not as the `success = false` fallback the claim asserts for every
provider path. -/
theorem C7_ai_adapter_counterexample :
    get_gemini_rest_response "some-key" (ProviderOutcome.ok "") =
      ⟨true, ""⟩ ∧
    (⟨true, ""⟩ : AIResult) ≠ ⟨false, FALLBACK_MESSAGE⟩ := by
  constructor
  · decide
  · decide

/-- C7 amended: every provider error yields the identical
`{success := false, answer := FALLBACK_MESSAGE}` on all four provider
paths, independent of the error kind; an empty completion yields the same
failure on the OpenAI, Gemini-library and Groq paths; but on the Gemini
REST path an empty completion is reported as `success = true` with the
empty answer; and a non-empty completion containing an out-of-scope
indicator is replaced by the fixed `OFF_TOPIC_MESSAGE` with
`success = true`, never the raw completion. -/
theorem C7_ai_adapter_amended (key content kind kind2 : String) (avail : Bool) :
    (get_openai_response avail key (ProviderOutcome.err kind) = ⟨false, FALLBACK_MESSAGE⟩) ∧
    (get_gemini_response avail key (ProviderOutcome.err kind) = ⟨false, FALLBACK_MESSAGE⟩) ∧
    (get_gemini_rest_response key (ProviderOutcome.err kind) = ⟨false, FALLBACK_MESSAGE⟩) ∧
    (get_groq_response key (ProviderOutcome.err kind) = ⟨false, FALLBACK_MESSAGE⟩) ∧
    (get_groq_response key (ProviderOutcome.err kind) =
      get_groq_response key (ProviderOutcome.err kind2)) ∧
    (pyStrip content = "" →
      get_groq_response key (ProviderOutcome.ok content) = ⟨false, FALLBACK_MESSAGE⟩) ∧
    (pyStrip content = "" →
      get_openai_response avail key (ProviderOutcome.ok content) = ⟨false, FALLBACK_MESSAGE⟩) ∧
    (avail = true → pyStrip content = "" →
      get_gemini_response avail key (ProviderOutcome.ok content) = ⟨false, FALLBACK_MESSAGE⟩) ∧
    (key ≠ "" → key ≠ "your-gemini-api-key-here" → pyStrip content = "" →
      get_gemini_rest_response key (ProviderOutcome.ok content) = ⟨true, ""⟩) ∧
    (key ≠ "" → key ≠ "your-groq-api-key-here" → pyStrip content ≠ "" →
      is_response_out_of_scope (pyStrip content) = true →
      get_groq_response key (ProviderOutcome.ok content) = ⟨true, OFF_TOPIC_MESSAGE⟩) ∧
    (key ≠ "" → key ≠ "your-gemini-api-key-here" →
      is_response_out_of_scope (pyStrip content) = true →
      get_gemini_rest_response key (ProviderOutcome.ok content) = ⟨true, OFF_TOPIC_MESSAGE⟩) := by
  refine ⟨?_, ?_, ?_, ?_, ?_, ?_, ?_, ?_, ?_, ?_, ?_⟩
  · unfold get_openai_response
    split
    · rfl
    · split
      · rfl
      · rfl
  · unfold get_gemini_response get_gemini_rest_response
    split
    · split
      · rfl
      · rfl
    · split
      · rfl
      · rfl
  · unfold get_gemini_rest_response
    split
    · rfl
    · rfl
  · unfold get_groq_response
    split
    · rfl
    · rfl
  · unfold get_groq_response
    split
    · rfl
    · rfl
  · intro h
    unfold get_groq_response
    split
    · rfl
    · simp [h]
  · intro h
    unfold get_openai_response
    split
    · rfl
    · split
      · rfl
      · simp [h]
  · intro ha h
    subst ha
    unfold get_gemini_response
    rw [if_neg (by simp)]
    split
    · rfl
    · simp [h]
  · intro hk1 hk2 h
    unfold get_gemini_rest_response
    rw [if_neg (by simp [hk1, hk2])]
    simp [h, show is_response_out_of_scope "" = false from by decide]
  · intro hk1 hk2 h ho
    unfold get_groq_response
    rw [if_neg (by simp [hk1, hk2])]
    simp [h, ho]
  · intro hk1 hk2 ho
    unfold get_gemini_rest_response
    rw [if_neg (by simp [hk1, hk2])]
    simp [ho]

/-- Witness for C7 amended at concrete inputs: a timeout-kind and an
auth-kind error both map to the fallback on the Groq path, and an
out-of-scope completion is replaced by the off-topic message. -/
theorem C7_ai_adapter_amended_witness :
    get_groq_response "some-key" (ProviderOutcome.err "timeout") = ⟨false, FALLBACK_MESSAGE⟩ ∧
    get_groq_response "some-key" (ProviderOutcome.err "timeout") =
      get_groq_response "some-key" (ProviderOutcome.err "auth") ∧
    get_groq_response "some-key" (ProviderOutcome.ok " invest in bitcoin now ") =
      ⟨true, OFF_TOPIC_MESSAGE⟩ := by
  refine ⟨?_, ?_, ?_⟩
  · exact (C7_ai_adapter_amended "some-key" "" "timeout" "auth" true).2.2.2.1
  · exact (C7_ai_adapter_amended "some-key" "" "timeout" "auth" true).2.2.2.2.1
  · exact (C7_ai_adapter_amended "some-key" " invest in bitcoin now " "timeout" "auth"
      true).2.2.2.2.2.2.2.2.2.1 (by decide) (by decide) (by decide) (by decide)

/-! ## Claims C6 (room trigger) and C9 (today's classes) -/

/-- The knowledge-base stage over an empty knowledge base reports
not-found with rounded score 0. -/
theorem kbResult_nil (ratio : String → String → ℚ) (choice : List String → String)
    (msg : String) : kbResult ratio choice [] msg = ⟨false, none, pyRound2 0, none⟩ := by
  unfold kbResult kbBest
  simp

/-- Rounding zero gives zero. -/
theorem pyRound2_zero : pyRound2 0 = 0 := by
  unfold pyRound2 roundHalfEven
  norm_num

/-- An environment with a one-room directory and an empty knowledge base. -/
def c6Env : Env :=
  { adminData := { room_directory := [("101", ⟨"1st", "A", "Classroom", "40"⟩)] },
    kb := [], today := "Monday", choice := fun l => l.headD "", ratio := fun _ _ => 0 }

/-- C6 counterexample: "where is the gym" contains the room-related word
"where", and the room lookup itself would produce the directory listing,
yet the room-location branch is never attempted — the trigger tests the
stop-word-filtered keywords, "where" is a stop word, and `find_answer`
falls through to a not-found result that ignores the available lookup
response. -/
theorem C6_room_trigger_counterexample :
    pyIn "where" (pyLower "where is the gym") = true ∧
    (get_room_location c6Env.adminData "where is the gym").isSome = true ∧
    roomTriggered (get_keywords "where is the gym") (pyLower "where is the gym") = false ∧
    find_answer c6Env "where is the gym" none = Except.ok ⟨false, none, 0, none⟩ := by
  refine ⟨by decide, by decide, by decide, ?_⟩
  have h := find_answer_fallthrough_eq c6Env "where is the gym" none
    (by decide) (by decide) (by decide) (by decide) (by decide) (by decide) (by decide)
  rw [h]
  have hkb : c6Env.kb = [] := rfl
  rw [hkb, kbResult_nil, pyRound2_zero]

/-- C6 amended: the room-location trigger tests the extracted (stop-word
filtered) keywords, not the raw message, and "where" is a stop word, so it
can never appear among the extracted keywords (the configured trigger word
"where" is dead); whenever the trigger does hold and the room lookup
produces a response, that response is returned with intent "room_location"
before any later branch. -/
theorem C6_room_trigger_amended (env : Env) (user_message : String)
    (profile : Option Profile) (r : String) :
    "where" ∉ get_keywords user_message ∧
    (roomTriggered (get_keywords user_message) (pyLower user_message) = true →
      get_room_location env.adminData user_message = some r →
      find_answer env user_message profile =
        Except.ok ⟨true, some r, 95/100, some "room_location"⟩) := by
  constructor
  · intro hmem
    rw [get_keywords] at hmem
    have h2 := (List.mem_filter.mp hmem).2
    simp only [decide_eq_true_eq] at h2
    exact h2 (by decide)
  · exact fun h1 h2 => find_answer_room_eq env user_message profile r h1 h2

/-- Witness for C6 amended: "where is room 101" triggers through the
keyword "room" and the digits, and the located room is returned. -/
theorem C6_room_trigger_amended_witness :
    find_answer c6Env "where is room 101" none =
      Except.ok ⟨true,
        some ("**Room 101**\n\n- **Floor:** 1st\n- **Wing:** A\n- **Type:** Classroom\n- **Capacity:** 40 students\n"),
        95/100, some "room_location"⟩ :=
  (C6_room_trigger_amended c6Env "where is room 101" none
    "**Room 101**\n\n- **Floor:** 1st\n- **Wing:** A\n- **Type:** Classroom\n- **Capacity:** 40 students\n").2
    (by decide) (by decide)

/-- C9 counterexample: "which room is my class today" carries the
today-marker and the class keyword, but the higher-priority room branch
intercepts it (the word "room" and a nonempty directory produce the
generic directory listing), so `find_answer` answers with intent
"room_location", not from the today's-classes branch. -/
theorem C9_todays_classes_counterexample :
    pyIn "today" (pyLower "which room is my class today") = true ∧
    (["class", "classes", "timetable", "schedule"].any
      (fun kw => (get_keywords "which room is my class today").contains kw)) = true ∧
    find_answer c6Env "which room is my class today" none =
      Except.ok ⟨true,
        some ("**ROOM DIRECTORY:**\n\n- **Room 101**: 1st, A (Classroom)\n\n...and more. Ask about a specific room number."),
        95/100, some "room_location"⟩ ∧
    (some "room_location" : Option String) ≠ some "todays_classes" := by
  refine ⟨by decide, by decide, ?_, by decide⟩
  exact find_answer_room_eq c6Env "which room is my class today" none
    ("**ROOM DIRECTORY:**\n\n- **Room 101**: 1st, A (Classroom)\n\n...and more. Ask about a specific room number.")
    (by decide) (by decide)

/-- C9 amended: for a message containing a today/now marker and a
class/timetable keyword, provided the higher-priority room branch does not
produce a result and `get_todays_classes` returns normally (its guards
turn a missing profile, missing dept or missing weekday into explanatory
messages), `find_answer` returns found=true at confidence 0.95 with intent
"todays_classes" and that answer — the branch neither falls through nor
reports found=false. -/
theorem C9_todays_classes_amended (env : Env) (user_message : String)
    (profile : Option Profile) (resp : String)
    (h1 : (["today", "today" ++ apos ++ "s", "now", "current class"].any
      (fun kw => pyIn kw (pyLower user_message))) = true)
    (h2 : (["class", "classes", "timetable", "schedule"].any
      (fun kw => (get_keywords user_message).contains kw)) = true)
    (h3 : roomTriggered (get_keywords user_message) (pyLower user_message) = true →
      get_room_location env.adminData user_message = none)
    (h4 : get_todays_classes env.adminData env.today profile = Except.ok resp) :
    find_answer env user_message profile =
      Except.ok ⟨true, some resp, 95/100, some "todays_classes"⟩ := by
  apply find_answer_todays_eq env user_message profile resp h3 _ h4
  simp only [todaysTriggered, h1, h2, Bool.and_self]

/-- Witness for C9 amended: "today class" with no profile degrades to the
set-your-profile message, still found at confidence 0.95. -/
theorem C9_todays_classes_amended_witness :
    find_answer defaultEnv "today class" none =
      Except.ok ⟨true,
        some ("Please set your profile (dept/sem/section) to see today" ++ apos ++ "s classes."),
        95/100, some "todays_classes"⟩ :=
  C9_todays_classes_amended defaultEnv "today class" none
    ("Please set your profile (dept/sem/section) to see today" ++ apos ++ "s classes.")
    (by decide) (by decide) (by decide) rfl

/-! ## Claim C3: knowledge-base scoring

Spec-side characterization of the knowledge-base stage: all
(intent, pattern) pairs in iteration order, the maximum blended score, and
the first pair attaining it. -/

/-- All (intent, pattern) pairs of the knowledge base in iteration order. -/
def kbPairs (intents : List Intent) : List (Intent × String) :=
  intents.flatMap (fun intent => intent.patterns.map (fun p => (intent, p)))

/-- The best-match update step, over pairs. -/
def foldStep (f : Intent × String → ℚ) (best : BestMatch) (pr : Intent × String) : BestMatch :=
  if best.score < f pr then ⟨f pr, some (pr.1.tag.getD "unknown"), pr.1.responses⟩ else best

/-- The initial value bounds a max-fold from below. -/
theorem le_foldl_max (l : List ℚ) (a : ℚ) : a ≤ l.foldl max a := by
  induction l generalizing a with
  | nil => exact le_refl a
  | cons x xs ih => exact le_trans (le_max_left a x) (ih (max a x))

/-- Characterization of the strict-greater best-match fold: its score is
the max of all scores (floored at the initial score), and when it improved
on the initial value it holds exactly the first pair attaining that max. -/
theorem foldStep_spec (f : Intent × String → ℚ) (l : List (Intent × String)) (b : BestMatch) :
    (l.foldl (foldStep f) b).score = (l.map f).foldl max b.score ∧
    (b.score < (l.foldl (foldStep f) b).score →
      ∃ pr, l.find? (fun x => decide (f x = (l.foldl (foldStep f) b).score)) = some pr ∧
        l.foldl (foldStep f) b = ⟨f pr, some (pr.1.tag.getD "unknown"), pr.1.responses⟩) ∧
    (¬ b.score < (l.foldl (foldStep f) b).score → l.foldl (foldStep f) b = b) := by
  induction l generalizing b with
  | nil =>
    refine ⟨rfl, ?_, fun _ => rfl⟩
    intro h
    exact absurd h (lt_irrefl _)
  | cons x xs ih =>
    by_cases hx : b.score < f x
    · have hstep : foldStep f b x = ⟨f x, some (x.1.tag.getD "unknown"), x.1.responses⟩ := by
        unfold foldStep
        rw [if_pos hx]
      have hfold : (x :: xs).foldl (foldStep f) b =
          xs.foldl (foldStep f) ⟨f x, some (x.1.tag.getD "unknown"), x.1.responses⟩ := by
        rw [List.foldl_cons, hstep]
      obtain ⟨ihs, ihw, ihn⟩ := ih ⟨f x, some (x.1.tag.getD "unknown"), x.1.responses⟩
      have hsc : ((x :: xs).foldl (foldStep f) b).score = ((x :: xs).map f).foldl max b.score := by
        rw [hfold, ihs, List.map_cons, List.foldl_cons, max_eq_right (le_of_lt hx)]
      have hge : f x ≤ ((x :: xs).foldl (foldStep f) b).score := by
        rw [hfold]
        calc f x = (⟨f x, some (x.1.tag.getD "unknown"), x.1.responses⟩ : BestMatch).score := rfl
        _ ≤ _ := by rw [ihs]; exact le_foldl_max _ _
      refine ⟨hsc, ?_, ?_⟩
      · intro _
        by_cases hx2 : f x < ((x :: xs).foldl (foldStep f) b).score
        · have hx2' : (⟨f x, some (x.1.tag.getD "unknown"), x.1.responses⟩ : BestMatch).score <
              (xs.foldl (foldStep f) ⟨f x, some (x.1.tag.getD "unknown"), x.1.responses⟩).score := by
            rw [← hfold]; exact hx2
          obtain ⟨pr, hfind, heq⟩ := ihw hx2'
          refine ⟨pr, ?_, by rw [hfold]; exact heq⟩
          rw [hfold]
          rw [List.find?_cons_of_neg]
          · exact hfind
          · simp only [decide_eq_true_eq]
            exact ne_of_lt hx2'
        · have heq : (x :: xs).foldl (foldStep f) b =
              ⟨f x, some (x.1.tag.getD "unknown"), x.1.responses⟩ := by
            rw [hfold]
            apply ihn
            rw [← hfold]
            exact hx2
          have hscx : ((x :: xs).foldl (foldStep f) b).score = f x := by rw [heq]
          have hpx : (fun y => decide (f y = ((x :: xs).foldl (foldStep f) b).score)) x = true := by
            simp only [decide_eq_true_eq]
            exact hscx.symm
          exact ⟨x, List.find?_cons_of_pos _ hpx, heq⟩
      · intro hngt
        exact absurd (lt_of_lt_of_le hx hge) hngt
    · have hstep : foldStep f b x = b := by
        unfold foldStep
        rw [if_neg hx]
      have hfold : (x :: xs).foldl (foldStep f) b = xs.foldl (foldStep f) b := by
        rw [List.foldl_cons, hstep]
      obtain ⟨ihs, ihw, ihn⟩ := ih b
      have hsc : ((x :: xs).foldl (foldStep f) b).score = ((x :: xs).map f).foldl max b.score := by
        rw [hfold, ihs, List.map_cons, List.foldl_cons, max_eq_left (le_of_not_lt hx)]
      refine ⟨hsc, ?_, ?_⟩
      · intro hgt
        rw [hfold] at hgt
        obtain ⟨pr, hfind, heq⟩ := ihw hgt
        refine ⟨pr, ?_, by rw [hfold]; exact heq⟩
        rw [hfold, List.find?_cons_of_neg]
        · exact hfind
        · simp only [decide_eq_true_eq]
          have hle : f x ≤ b.score := le_of_not_lt hx
          exact ne_of_lt (lt_of_le_of_lt hle hgt)
      · intro hngt
        rw [hfold] at hngt ⊢
        exact ihn hngt

/-- The nested intent/pattern loop equals the flat fold over the pairs. -/
theorem kbBest_eq_flat (ratio : String → String → ℚ) (pq : String) (uk : List String)
    (intents : List Intent) :
    kbBest ratio pq uk intents =
      (kbPairs intents).foldl (foldStep (fun pr => patternScore ratio pq uk pr.2))
        ⟨0, none, []⟩ := by
  suffices h : ∀ b, intents.foldl
      (fun best intent => intent.patterns.foldl
        (fun best pattern => kbStep ratio pq uk best intent pattern) best) b =
      (kbPairs intents).foldl (foldStep (fun pr => patternScore ratio pq uk pr.2)) b by
    exact h ⟨0, none, []⟩
  intro b
  induction intents generalizing b with
  | nil => rfl
  | cons it rest ih =>
    rw [List.foldl_cons]
    show rest.foldl _ (it.patterns.foldl _ b) = _
    rw [ih]
    have hpairs : kbPairs (it :: rest) =
        (it.patterns.map (fun p => (it, p))) ++ kbPairs rest := by
      simp [kbPairs]
    rw [hpairs, List.foldl_append, List.foldl_map]
    rfl

/-- The best score recorded by the loop is never negative. -/
theorem kbBest_score_nonneg (ratio : String → String → ℚ) (pq : String)
    (uk : List String) (intents : List Intent) :
    0 ≤ (kbBest ratio pq uk intents).score := by
  rw [kbBest_eq_flat]
  rw [(foldStep_spec (fun pr => patternScore ratio pq uk pr.2) (kbPairs intents)
    ⟨0, none, []⟩).1]
  exact le_foldl_max _ 0

/-- Rounding preserves nonnegativity. -/
theorem pyRound2_nonneg (q : ℚ) (h : 0 ≤ q) : 0 ≤ pyRound2 q := by
  have hf : (0:ℤ) ≤ ⌊100 * q⌋ := Int.floor_nonneg.mpr (by positivity)
  have h1 : (0:ℚ) ≤ ((⌊100 * q⌋ : ℤ) : ℚ) := by exact_mod_cast hf
  have h2 : (0:ℚ) ≤ ((⌊100 * q⌋ + 1 : ℤ) : ℚ) := by
    have hz : (0:ℤ) ≤ ⌊100 * q⌋ + 1 := by omega
    exact_mod_cast hz
  simp only [pyRound2, roundHalfEven]
  split
  · exact div_nonneg h1 (by norm_num)
  · split
    · exact div_nonneg (by push_cast at h2 ⊢; linarith) (by norm_num)
    · split
      · exact div_nonneg h1 (by norm_num)
      · exact div_nonneg (by push_cast at h2 ⊢; linarith) (by norm_num)

/-- Spec-side keyword-overlap ratio as the amended claim words it: the
count of the message's extracted keywords occurring among the pattern's
keywords (with multiplicity over the message's keywords), divided by the
pattern's keyword count; 0 for a keyword-less pattern. -/
def keywordOverlapRatioSpec (uk pk : List String) : ℚ :=
  if pk = [] then 0
  else ((uk.filter (fun kw => pk.contains kw)).length : ℚ) / (pk.length : ℚ)

/-- Spec-side per-pattern blended score: 0.4 times the string similarity
plus 0.6 times the keyword-overlap ratio, floored at 0.85 when the
pattern's keyword set is nonempty and entirely contained in the message's
keywords. -/
def patternScoreSpec (ratio : String → String → ℚ) (pq : String) (uk : List String)
    (pattern : String) : ℚ :=
  let pk := get_keywords pattern
  let blended := (4/10) * ratio pq (preprocess_text pattern) +
    (6/10) * keywordOverlapRatioSpec uk pk
  if pk ≠ [] ∧ pk.all (fun kw => uk.contains kw) then max blended (85/100) else blended

/-- Spec-side best score: the maximum pattern score over all pairs, 0 if
none is positive. -/
def kbBestScoreSpec (ratio : String → String → ℚ) (pq : String) (uk : List String)
    (intents : List Intent) : ℚ :=
  ((kbPairs intents).map (fun pr => patternScoreSpec ratio pq uk pr.2)).foldl max 0

/-- Spec-side winner: the first pair (in iteration order) attaining the
best score — the tie-break the strict-greater update implements. -/
def kbWinnerSpec (ratio : String → String → ℚ) (pq : String) (uk : List String)
    (intents : List Intent) : Option (Intent × String) :=
  (kbPairs intents).find? (fun pr =>
    decide (patternScoreSpec ratio pq uk pr.2 = kbBestScoreSpec ratio pq uk intents))

/-- The loop's per-pattern score coincides with the spec-side formula. -/
theorem patternScore_eq_spec (ratio : String → String → ℚ) (pq : String)
    (uk : List String) (pattern : String) :
    patternScore ratio pq uk pattern = patternScoreSpec ratio pq uk pattern := by
  simp only [patternScore, patternScoreSpec, keywordOverlapRatioSpec]
  have h : ∀ a b : ℚ, a * (4/10) + b * (6/10) = (4/10) * a + (6/10) * b := by
    intro a b
    ring
  rw [h]

/-- Environment with a single-intent knowledge base (pattern "fee",
response "ans"), a constant-zero similarity ratio and first-element
choice. -/
def c3Env : Env :=
  { adminData := {}, kb := [{ tag := some "t", patterns := ["fee"], responses := ["ans"] }],
    today := "Monday", choice := fun l => l.headD "", ratio := fun _ _ => 0 }

/-- The loop's score of pattern "fee" against message "fee fee" (constant
zero ratio): the keyword count is taken over the message's keywords, so it
is 2/1 and the blended score is 1.2. -/
theorem c3_patternScore_eval :
    patternScore (fun _ _ => 0) (preprocess_text "fee fee") (get_keywords "fee fee") "fee" =
      6/5 := by
  have huk : get_keywords "fee fee" = ["fee", "fee"] := by decide
  have hpk : get_keywords "fee" = ["fee"] := by decide
  have hfil : List.filter (fun kw => (["fee"] : List String).contains kw) ["fee", "fee"] =
      ["fee", "fee"] := by decide
  have hall : (["fee"] : List String).all
      (fun kw => (["fee", "fee"] : List String).contains kw) = true := by decide
  simp only [patternScore, huk, hpk, hfil, hall]
  norm_num [max_def]

/-- Rounding 1.2 to two decimals is exact. -/
theorem pyRound2_six_fifths : pyRound2 (6/5 : ℚ) = 6/5 := by
  simp only [pyRound2, roundHalfEven]
  have h : (100 * ((6:ℚ)/5)) = ((120:ℤ) : ℚ) := by norm_num
  rw [h, Int.floor_intCast]
  norm_num

/-- The knowledge-base stage on message "fee fee" in `c3Env`: found with
confidence 1.2 — above 1. -/
theorem c3_kbResult_eval :
    kbResult c3Env.ratio c3Env.choice c3Env.kb "fee fee" =
      ⟨true, some "ans", 6/5, some "t"⟩ := by
  have hr : c3Env.ratio = fun _ _ => 0 := rfl
  have hkb : c3Env.kb = [{ tag := some "t", patterns := ["fee"], responses := ["ans"] }] := rfl
  have hch : c3Env.choice = fun l => l.headD "" := rfl
  have hstep : kbBest c3Env.ratio (preprocess_text "fee fee") (get_keywords "fee fee") c3Env.kb =
      ⟨6/5, some "t", ["ans"]⟩ := by
    rw [hr, hkb]
    simp only [kbBest, List.foldl_cons, List.foldl_nil, kbStep, c3_patternScore_eval]
    rw [if_pos (by norm_num)]
    rfl
  simp only [kbResult, hstep]
  rw [if_pos ⟨by rw [SIMILARITY_THRESHOLD]; norm_num, by simp⟩]
  rw [hch, pyRound2_six_fifths]
  rfl

/-- `find_answer` on "fee fee" in `c3Env` reaches the knowledge-base stage
and reports confidence 1.2. -/
theorem c3_find_answer_eval :
    find_answer c3Env "fee fee" none = Except.ok ⟨true, some "ans", 6/5, some "t"⟩ := by
  have h := find_answer_fallthrough_eq c3Env "fee fee" none (by decide) (by decide)
    (by decide) (by decide) (by decide) (by decide) (by decide)
  rw [h, c3_kbResult_eval]

/-- The per-pattern score as claim C3 words it: the keyword-overlap ratio
counts the pattern's content keywords that also appear among the message's
content keywords, and the 0.85 floor applies whenever the pattern's entire
keyword set is a subset of the message's keyword set. -/
def patternScoreClaimed (ratio : String → String → ℚ) (pq : String) (uk : List String)
    (pattern : String) : ℚ :=
  let pk := get_keywords pattern
  let overlap : ℚ := if pk = [] then 0
    else ((pk.filter (fun kw => uk.contains kw)).length : ℚ) / (pk.length : ℚ)
  let blended := (4/10) * ratio pq (preprocess_text pattern) + (6/10) * overlap
  if pk.all (fun kw => uk.contains kw) then max blended (85/100) else blended

/-- The claim's formula on the same input yields 0.85. -/
theorem c3_patternScoreClaimed_eval :
    patternScoreClaimed (fun _ _ => 0) (preprocess_text "fee fee") (get_keywords "fee fee")
      "fee" = 85/100 := by
  have huk : get_keywords "fee fee" = ["fee", "fee"] := by decide
  have hpk : get_keywords "fee" = ["fee"] := by decide
  have hfil : List.filter (fun kw => (["fee", "fee"] : List String).contains kw) ["fee"] =
      ["fee"] := by decide
  have hall : (["fee"] : List String).all
      (fun kw => (["fee", "fee"] : List String).contains kw) = true := by decide
  simp only [patternScoreClaimed, huk, hpk, hfil, hall]
  norm_num [max_def]

/-- C3 counterexample: on message "fee fee" against pattern "fee" the code
computes the keyword ratio over the message's keyword occurrences (2/1),
giving the blended score 1.2, whereas the claim's formula (counting the
pattern's keywords inside the message's) yields 0.85; the code's score,
not the claimed one, is what the knowledge-base stage reports. -/
theorem C3_kb_scoring_counterexample :
    patternScore (fun _ _ => 0) (preprocess_text "fee fee") (get_keywords "fee fee") "fee" =
      6/5 ∧
    patternScoreClaimed (fun _ _ => 0) (preprocess_text "fee fee") (get_keywords "fee fee")
      "fee" = 85/100 ∧
    ((6:ℚ)/5) ≠ 85/100 ∧
    kbResult c3Env.ratio c3Env.choice c3Env.kb "fee fee" =
      ⟨true, some "ans", 6/5, some "t"⟩ :=
  ⟨c3_patternScore_eval, c3_patternScoreClaimed_eval, by norm_num, c3_kbResult_eval⟩

/-- C3 amended: the knowledge-base stage scores each pattern of each
intent as 0.4 times the string similarity of the normalized texts plus 0.6
times the keyword-overlap ratio, where the ratio counts the message's
extracted keywords occurring among the pattern's keywords (multiplicity
over the message's keywords, so it can exceed 1) divided by the pattern's
keyword count; the score is raised to at least 0.85 when the pattern's
keyword set is nonempty and entirely contained in the message's keywords;
the single highest-scoring pair is kept with ties broken in favour of the
first encountered; and the result is found=true with the chosen response
and the rounded best score exactly when the best score is at least the
0.6 threshold and the winning intent has at least one response, otherwise
found=false still reporting the rounded best score. -/
theorem C3_kb_scoring_amended (env : Env) (user_message : String) :
    (kbResult env.ratio env.choice env.kb user_message =
      (match kbWinnerSpec env.ratio (preprocess_text user_message)
          (get_keywords user_message) env.kb with
       | some pr =>
         if SIMILARITY_THRESHOLD ≤ kbBestScoreSpec env.ratio (preprocess_text user_message)
              (get_keywords user_message) env.kb ∧ pr.1.responses ≠ [] then
           ⟨true, some (env.choice pr.1.responses),
            pyRound2 (kbBestScoreSpec env.ratio (preprocess_text user_message)
              (get_keywords user_message) env.kb),
            some (pr.1.tag.getD "unknown")⟩
         else
           ⟨false, none,
            pyRound2 (kbBestScoreSpec env.ratio (preprocess_text user_message)
              (get_keywords user_message) env.kb), none⟩
       | none =>
         ⟨false, none,
          pyRound2 (kbBestScoreSpec env.ratio (preprocess_text user_message)
            (get_keywords user_message) env.kb), none⟩)) ∧
    (∀ pattern, patternScore env.ratio (preprocess_text user_message)
        (get_keywords user_message) pattern =
      patternScoreSpec env.ratio (preprocess_text user_message)
        (get_keywords user_message) pattern) := by
  refine ⟨?_, fun pattern => patternScore_eq_spec _ _ _ pattern⟩
  set pq := preprocess_text user_message with hpq
  set uk := get_keywords user_message with huk
  set f := fun pr : Intent × String => patternScore env.ratio pq uk pr.2 with hfdef
  have hS : kbBestScoreSpec env.ratio pq uk env.kb =
      ((kbPairs env.kb).map f).foldl max 0 := by
    simp only [kbBestScoreSpec, hfdef, patternScore_eq_spec]
  obtain ⟨hsc, hw, hn⟩ := foldStep_spec f (kbPairs env.kb) ⟨0, none, []⟩
  have hB : kbBest env.ratio pq uk env.kb =
      (kbPairs env.kb).foldl (foldStep f) ⟨0, none, []⟩ := kbBest_eq_flat _ _ _ _
  have hBS : (kbBest env.ratio pq uk env.kb).score = kbBestScoreSpec env.ratio pq uk env.kb := by
    rw [hB, hsc, hS]
  have hwinner : kbWinnerSpec env.ratio pq uk env.kb =
      (kbPairs env.kb).find?
        (fun pr => decide (f pr = kbBestScoreSpec env.ratio pq uk env.kb)) := by
    simp only [kbWinnerSpec, hfdef, patternScore_eq_spec]
  by_cases hpos : (0:ℚ) < kbBestScoreSpec env.ratio pq uk env.kb
  · have hgt : (⟨0, none, []⟩ : BestMatch).score <
        ((kbPairs env.kb).foldl (foldStep f) ⟨0, none, []⟩).score := by
      show (0:ℚ) < _
      rw [hsc, ← hS]
      exact hpos
    obtain ⟨pr, hfind, heq⟩ := hw hgt
    have hfind' : kbWinnerSpec env.ratio pq uk env.kb = some pr := by
      rw [hwinner]
      have hssc : ((kbPairs env.kb).foldl (foldStep f) ⟨0, none, []⟩).score =
          kbBestScoreSpec env.ratio pq uk env.kb := by rw [hsc, hS]
      rw [← hssc]
      exact hfind
    rw [hfind']
    have hfpr : f pr = kbBestScoreSpec env.ratio pq uk env.kb := by
      have hh := heq
      rw [← hBS, hB, hh]
    simp only [kbResult, ← hpq, ← huk, hB, heq]
    rw [hfpr]
  · have hn' : (kbPairs env.kb).foldl (foldStep f) ⟨0, none, []⟩ = ⟨0, none, []⟩ := by
      apply hn
      rw [hsc, ← hS]
      simpa using hpos
    have hS0 : kbBestScoreSpec env.ratio pq uk env.kb = 0 := by
      rw [← hBS, hB, hn']
    have hkbr : kbResult env.ratio env.choice env.kb user_message =
        ⟨false, none, pyRound2 0, none⟩ := by
      simp only [kbResult, ← hpq, ← huk, hB, hn']
      rw [if_neg]
      simp
    cases hwc : kbWinnerSpec env.ratio pq uk env.kb with
    | none => rw [hkbr, hS0]
    | some pr =>
      rw [hkbr, hS0]
      norm_num [SIMILARITY_THRESHOLD]

/-! ## Claim C4: confidence range -/

/-- Case analysis of a successful `orElseE` composition. -/
theorem orElseE_ok_cases {x : Except String (Option MatchResult)}
    {next : Unit → Except String MatchResult} {r : MatchResult}
    (h : orElseE x next = Except.ok r) :
    x = Except.ok (some r) ∨ (x = Except.ok none ∧ next () = Except.ok r) := by
  match x with
  | Except.error e => simp [orElseE] at h
  | Except.ok none => exact Or.inr ⟨rfl, h⟩
  | Except.ok (some v) =>
    left
    simp only [orElseE, Except.ok.injEq] at h
    rw [h]

/-- Every successful `find_answer` result either comes from a specialized
branch (found=true at the fixed confidence 0.95 or 0.90) or is the
knowledge-base stage's result. -/
theorem find_answer_ok_cases (env : Env) (msg : String) (profile : Option Profile)
    (r : MatchResult) (h : find_answer env msg profile = Except.ok r) :
    (r.found = true ∧ (r.confidence = 95/100 ∨ r.confidence = 9/10)) ∨
      r = kbResult env.ratio env.choice env.kb msg := by
  simp only [find_answer] at h
  rcases orElseE_ok_cases h with h1 | ⟨_, h⟩
  · left
    have h1' := Except.ok.inj h1
    split at h1'
    · rcases Option.map_eq_some'.mp h1' with ⟨a, _, hr⟩
      rw [← hr]
      exact ⟨rfl, Or.inl rfl⟩
    · simp at h1'
  · rcases orElseE_ok_cases h with h2 | ⟨_, h⟩
    · left
      split at h2
      · rcases hgt : get_todays_classes env.adminData env.today profile with e | resp <;>
          rw [hgt] at h2
        · simp [Except.map] at h2
        · simp only [Except.map, Except.ok.injEq, Option.some.injEq] at h2
          rw [← h2]
          exact ⟨rfl, Or.inl rfl⟩
      · simp at h2
    · rcases orElseE_ok_cases h with h3 | ⟨_, h⟩
      · left
        split at h3
        · split at h3
          · rcases hgt : get_personalized_timetable env.adminData profile with e | o <;>
              rw [hgt] at h3
            · simp [Except.map] at h3
            · simp only [Except.map, Except.ok.injEq] at h3
              rcases Option.map_eq_some'.mp h3 with ⟨a, _, hr⟩
              rw [← hr]
              exact ⟨rfl, Or.inl rfl⟩
          · have h3' := Except.ok.inj h3
            have h3'' := Option.some.inj h3'
            rw [← h3'']
            exact ⟨rfl, Or.inl rfl⟩
        · simp at h3
      · rcases orElseE_ok_cases h with h4 | ⟨_, h⟩
        · left
          split at h4
          · rcases hgt : get_student_notifications env.adminData profile with e | resp <;>
              rw [hgt] at h4
            · simp [Except.map] at h4
            · simp only [Except.map, Except.ok.injEq, Option.some.injEq] at h4
              rw [← h4]
              exact ⟨rfl, Or.inl rfl⟩
          · simp at h4
        · rcases orElseE_ok_cases h with h5 | ⟨_, h⟩
          · left
            have h5' := Except.ok.inj h5
            split at h5'
            · rcases Option.map_eq_some'.mp h5' with ⟨a, _, hr⟩
              rw [← hr]
              exact ⟨rfl, Or.inl rfl⟩
            · simp at h5'
          · rcases orElseE_ok_cases h with h6 | ⟨_, h⟩
            · left
              have h6' := Except.ok.inj h6
              split at h6'
              · rcases Option.map_eq_some'.mp h6' with ⟨a, _, hr⟩
                rw [← hr]
                exact ⟨rfl, Or.inr rfl⟩
              · simp at h6'
            · rcases orElseE_ok_cases h with h7 | ⟨_, h⟩
              · left
                have h7' := Except.ok.inj h7
                rcases Option.map_eq_some'.mp h7' with ⟨a, _, hr⟩
                rw [← hr]
                exact ⟨rfl, Or.inr rfl⟩
              · right
                exact (Except.ok.inj h).symm

/-- C4 counterexample: in a knowledge base whose pattern repeats inside
the message ("fee fee" against pattern "fee"), `find_answer` returns
found=true with confidence 1.2, outside the claimed closed interval
[0, 1]. -/
theorem C4_confidence_counterexample :
    find_answer c3Env "fee fee" none = Except.ok ⟨true, some "ans", 6/5, some "t"⟩ ∧
    ¬ ((6:ℚ)/5 ≤ 1) :=
  ⟨c3_find_answer_eval, by norm_num⟩

/-- C4 amended: every MatchResult returned by `find_answer` has a
nonnegative confidence which is either one of the fixed branch values 0.95
and 0.90 or the rounded best knowledge-base score (the latter can exceed 1
when the message repeats a pattern's keywords); and whenever found=false
the confidence is exactly the rounded best score observed. -/
theorem C4_confidence_amended (env : Env) (msg : String) (profile : Option Profile)
    (r : MatchResult) (h : find_answer env msg profile = Except.ok r) :
    0 ≤ r.confidence ∧
    (r.confidence = 95/100 ∨ r.confidence = 9/10 ∨
      r.confidence = pyRound2 (kbBest env.ratio (preprocess_text msg)
        (get_keywords msg) env.kb).score) ∧
    (r.found = false →
      r.confidence = pyRound2 (kbBest env.ratio (preprocess_text msg)
        (get_keywords msg) env.kb).score) := by
  rcases find_answer_ok_cases env msg profile r h with ⟨hfound, hconf⟩ | hkb
  · refine ⟨?_, ?_, ?_⟩
    · rcases hconf with h1 | h1 <;> rw [h1] <;> norm_num
    · rcases hconf with h1 | h1
      · exact Or.inl h1
      · exact Or.inr (Or.inl h1)
    · intro hf
      rw [hfound] at hf
      exact absurd hf (by simp)
  · have hconf : r.confidence = pyRound2 (kbBest env.ratio (preprocess_text msg)
        (get_keywords msg) env.kb).score := by
      rw [hkb]
      simp only [kbResult]
      split <;> rfl
    refine ⟨?_, Or.inr (Or.inr hconf), fun _ => hconf⟩
    rw [hconf]
    exact pyRound2_nonneg _ (kbBest_score_nonneg _ _ _ _)

/-- Witness for C4 amended at the concrete "fee fee" run: the returned
confidence 1.2 is nonnegative, equals the rounded best score, and the
result is found. -/
theorem C4_confidence_amended_witness :
    0 ≤ (⟨true, some "ans", 6/5, some "t"⟩ : MatchResult).confidence ∧
    ((⟨true, some "ans", 6/5, some "t"⟩ : MatchResult).confidence = 95/100 ∨
      (⟨true, some "ans", 6/5, some "t"⟩ : MatchResult).confidence = 9/10 ∨
      (⟨true, some "ans", 6/5, some "t"⟩ : MatchResult).confidence =
        pyRound2 (kbBest c3Env.ratio (preprocess_text "fee fee")
          (get_keywords "fee fee") c3Env.kb).score) ∧
    ((⟨true, some "ans", 6/5, some "t"⟩ : MatchResult).found = false →
      (⟨true, some "ans", 6/5, some "t"⟩ : MatchResult).confidence =
        pyRound2 (kbBest c3Env.ratio (preprocess_text "fee fee")
          (get_keywords "fee fee") c3Env.kb).score) :=
  C4_confidence_amended c3Env "fee fee" none ⟨true, some "ans", 6/5, some "t"⟩
    c3_find_answer_eval
